import Mathlib

/-!
# TracyOpenCL.hpp: the OpenCL context ring and its zone scopes

A shallow embedding of `tracy::OpenCLCtx` and `tracy::OpenCLCtxScope`
(`TracyOpenCL.hpp`, the `TRACY_ENABLE` branch).

Modelling conventions.

* `unsigned int` cursors are natural numbers; the only arithmetic the source
  applies to them is `(x + 1) % QueryCount`, which cannot overflow 32 bits
  from a value below `QueryCount`.
* `int64_t` values are integers, wrapped into `[-2^63, 2^63)` by `toInt64`
  after every arithmetic operation; `cl_ulong` values are naturals reduced
  modulo `2^64`; the cast `(uint16_t)` is `% 2^16`.
* `m_query` (an array of `QueryCount` slots) is a function from slot index to
  `EventInfo`; the cursors only index it below `QueryCount` in well-formed
  states.
* `assert` is taken as active (no `NDEBUG`): a failed assertion aborts the
  call, which is reported in the result together with the memory and the trace
  at the point of the abort. The source makes two device calls inside the
  argument of `assert`, `clRetainEvent` in `SetEvent` and `clReleaseEvent` in
  `Collect`; a build with `NDEBUG` drops them with the assertion. That build of
  the two methods is embedded apart, as `SetEventNDEBUG` and `CollectNDEBUG`.
* The OpenCL runtime is a `Device`: a snapshot giving, for each event handle,
  what `clGetEventInfo`, `clGetEventProfilingInfo`, `clReleaseEvent` and
  `clRetainEvent` answer during one call.
* The profiler queue and the device calls are observed through a trace of
  `Effect`s, in program order.
* `TRACY_ON_DEMAND` (a build flag) and `GetProfiler().IsConnected()` are
  boolean arguments.
* The counter behind `GetGpuCtxCounter()` is declared outside this file; a
  construction takes the value it draws as an argument, and `fetch_add` models
  the draw for sequences of constructions.
-/

namespace tracy

/-! ## Constants of `CL/cl.h` and of the class -/

/-- The value of `CL_SUCCESS` in `CL/cl.h`. -/
def CL_SUCCESS : Int := 0

/-- The value of `CL_COMPLETE` in `CL/cl.h`. -/
def CL_COMPLETE : Int := 0

/-- The value of `CL_INVALID_EVENT` in `CL/cl.h`, the error the OpenCL
runtime gives for a handle that is not a valid event object. -/
def CL_INVALID_EVENT : Int := -58

/-- The value of `CL_PROFILING_COMMAND_START` in `CL/cl.h`. -/
def CL_PROFILING_COMMAND_START : Int := 0x1282

/-- The value of `CL_PROFILING_COMMAND_END` in `CL/cl.h`. -/
def CL_PROFILING_COMMAND_END : Int := 0x1283

/-- The enumerator `OpenCLCtx::QueryCount`. -/
def QueryCount : Nat := 64 * 1024

/-- An event handle `cl_event`: a pointer, taken as its address. -/
abbrev cl_event := Nat

/-- The null event handle. -/
def nullptr : cl_event := 0

/-! ## Data model -/

/-- The enumeration `EventPhase`. -/
inductive EventPhase where
  | Begin
  | End
  deriving DecidableEq, Repr

/-- The struct `EventInfo`. -/
structure EventInfo where
  event : cl_event
  phase : EventPhase
  deriving DecidableEq, Repr

/-- The data members of `OpenCLCtx`. -/
structure OpenCLCtx where
  m_contextId : Nat
  m_query : Nat → EventInfo
  m_head : Nat
  m_tail : Nat
  m_hostStartTime : Int
  m_deviceStartTime : Int

/-- The answers of the OpenCL runtime during one call: `clGetEventInfo`
with `CL_EVENT_COMMAND_EXECUTION_STATUS` gives an error code and the status
written through the out-parameter, `clGetEventProfilingInfo` an error code and
the `cl_ulong` written, `clReleaseEvent` and `clRetainEvent` an error code. -/
structure Device where
  clGetEventInfo : cl_event → Int × Int
  clGetEventProfilingInfo : cl_event → Int → Int × Nat
  clReleaseEvent : cl_event → Int
  clRetainEvent : cl_event → Int

/-- The records written to the serial queue, with the fields the source
writes by `MemWrite`. -/
inductive QueueItem where
  | GpuTime (gpuTime : Int) (queryId : Nat) (context : Nat)
  | GpuZoneBeginSerial (cpuTime : Int) (srcloc : Nat) (thread : Nat)
      (queryId : Nat) (context : Nat)
  | GpuZoneBeginCallstackSerial (cpuTime : Int) (srcloc : Nat) (thread : Nat)
      (queryId : Nat) (context : Nat)
  | GpuZoneEndSerial (cpuTime : Int) (thread : Nat) (queryId : Nat) (context : Nat)
  deriving DecidableEq, Repr

/-- The observable actions of the code, in program order. -/
inductive Effect where
  | getEventInfo (event : cl_event)
  | getEventProfilingInfo (event : cl_event) (param : Int)
  | releaseEvent (event : cl_event)
  | retainEvent (event : cl_event)
  | queue (item : QueueItem)
  | sendCallstack (depth : Int)
  deriving DecidableEq, Repr

/-- How a call ended: it returned, an `assert` failed, or the model ran out
of loop iterations. -/
inductive Outcome where
  | returned
  | assertFailed
  | outOfFuel
  deriving DecidableEq, Repr

/-- The memory, the trace and the outcome of one `Collect` call. -/
structure CollectResult where
  ctx : OpenCLCtx
  trace : List Effect
  outcome : Outcome

/-! ## Machine arithmetic -/

/-- Wrap an integer into the range of `int64_t` (two's complement). -/
def toInt64 (x : Int) : Int := (x + 2 ^ 63) % 2 ^ 64 - 2 ^ 63

/-- Reduce a natural number to a `cl_ulong`. -/
def toUInt64 (x : Nat) : Nat := x % 2 ^ 64

/-- The cast `(uint16_t)`. -/
def toUInt16 (x : Nat) : Nat := x % 2 ^ 16

/-! ## `OpenCLCtx` -/

namespace OpenCLCtx

/-- The method `GetId`: the context id, returned as `uint8_t`. -/
def GetId (s : OpenCLCtx) : Nat := s.m_contextId % 2 ^ 8

/-- The method `TimestampOffset`:
`m_hostStartTime + (deviceTimestamp - m_deviceStartTime)` in `int64_t`. -/
def TimestampOffset (s : OpenCLCtx) (deviceTimestamp : Int) : Int :=
  toInt64 (s.m_hostStartTime + toInt64 (deviceTimestamp - s.m_deviceStartTime))

/-- The method `NextQueryId`. On a failed `assert(m_head != m_tail)` the
result is `Except.error` with the memory at the abort (the head already
advanced, the slot not written). -/
def NextQueryId (s : OpenCLCtx) (eventInfo : EventInfo) : Except OpenCLCtx (Nat × OpenCLCtx) :=
  let id := s.m_head
  let s1 := { s with m_head := (s.m_head + 1) % QueryCount }
  if s1.m_head = s1.m_tail then .error s1
  else .ok (id, { s1 with m_query := fun i => if i = id then eventInfo else s1.m_query i })

/-- The method `GetQuery`: the slot `m_query[id]`, or `none` when
`assert(id < QueryCount)` fails. -/
def GetQuery (s : OpenCLCtx) (id : Nat) : Option EventInfo :=
  if id < QueryCount then some (s.m_query id) else none

/-- The body of the loop of `Collect`, from the read of `m_query[m_tail]`
up to, not including, the update of `m_tail`: its trace, and `some` outcome
when the body leaves `Collect` (by `return` or by a failed `assert`), `none`
when control reaches the update of `m_tail`. This is the build without
`NDEBUG`: the call `clReleaseEvent(event)` is the argument of an `assert`, and
is made only in this build (see `collectBodyNDEBUG`). -/
def collectBody (dev : Device) (s : OpenCLCtx) : List Effect × Option Outcome :=
  let eventInfo := s.m_query s.m_tail
  let event := eventInfo.event
  let err := (dev.clGetEventInfo event).1
  let eventStatus := (dev.clGetEventInfo event).2
  if err ≠ CL_SUCCESS then ([.getEventInfo event], some .assertFailed)
  else if eventStatus ≠ CL_COMPLETE then ([.getEventInfo event], some .returned)
  else
    let eventInfoQuery :=
      if eventInfo.phase = EventPhase.Begin then CL_PROFILING_COMMAND_START
      else CL_PROFILING_COMMAND_END
    let err2 := (dev.clGetEventProfilingInfo event eventInfoQuery).1
    let eventTimeStamp := toUInt64 (dev.clGetEventProfilingInfo event eventInfoQuery).2
    if err2 ≠ CL_SUCCESS then
      ([.getEventInfo event, .getEventProfilingInfo event eventInfoQuery], some .assertFailed)
    else if eventTimeStamp = 0 then
      ([.getEventInfo event, .getEventProfilingInfo event eventInfoQuery], some .assertFailed)
    else
      let item := QueueItem.GpuTime (s.TimestampOffset (toInt64 eventTimeStamp))
        (toUInt16 s.m_tail) s.m_contextId
      if eventInfo.phase = EventPhase.End then
        if dev.clReleaseEvent event ≠ CL_SUCCESS then
          ([.getEventInfo event, .getEventProfilingInfo event eventInfoQuery, .queue item,
            .releaseEvent event], some .assertFailed)
        else
          ([.getEventInfo event, .getEventProfilingInfo event eventInfoQuery, .queue item,
            .releaseEvent event], none)
      else
        ([.getEventInfo event, .getEventProfilingInfo event eventInfoQuery, .queue item], none)

/-- The loop `while (m_tail != m_head)` of `Collect`, run for at most `fuel`
iterations. -/
def collectLoop (dev : Device) : Nat → OpenCLCtx → CollectResult
  | 0, s => if s.m_tail = s.m_head then ⟨s, [], .returned⟩ else ⟨s, [], .outOfFuel⟩
  | fuel + 1, s =>
    if s.m_tail = s.m_head then ⟨s, [], .returned⟩
    else
      match collectBody dev s with
      | (effects, some outcome) => ⟨s, effects, outcome⟩
      | (effects, none) =>
        let r := collectLoop dev fuel { s with m_tail := (s.m_tail + 1) % QueryCount }
        ⟨r.ctx, effects ++ r.trace, r.outcome⟩

/-- The method `Collect`. `TRACY_ON_DEMAND` is the build flag and
`IsConnected` the answer of `GetProfiler().IsConnected()`. In a well-formed
ring the loop ends within `QueryCount` iterations. -/
def Collect (TRACY_ON_DEMAND IsConnected : Bool) (dev : Device) (s : OpenCLCtx) :
    CollectResult :=
  if s.m_tail = s.m_head then ⟨s, [], .returned⟩
  else
    let s1 := if TRACY_ON_DEMAND && !IsConnected then { s with m_head := 0, m_tail := 0 } else s
    collectLoop dev QueryCount s1

/-- The answers of the OpenCL runtime to the calibration probe of
`GetDeviceTimestamp`, one per call in program order. -/
structure Probe where
  clCreateCommandQueue : Int
  clCreateBuffer : Int
  clEnqueueWriteBuffer : Int
  clWaitForEvents : Int
  clGetEventInfo : Int × Int
  clGetEventProfilingInfo : Int × Nat
  clReleaseEvent : Int
  clReleaseMemObject : Int
  clReleaseCommandQueue : Int

/-- The method `GetDeviceTimestamp`: `none` when one of its assertions
fails, else `(int64_t)deviceTimestamp`. -/
def GetDeviceTimestamp (p : Probe) : Option Int :=
  if p.clCreateCommandQueue ≠ CL_SUCCESS then none
  else if p.clCreateBuffer ≠ CL_SUCCESS then none
  else if p.clEnqueueWriteBuffer ≠ CL_SUCCESS then none
  else if p.clWaitForEvents ≠ CL_SUCCESS then none
  else if p.clGetEventInfo.1 ≠ CL_SUCCESS then none
  else if p.clGetEventInfo.2 ≠ CL_COMPLETE then none
  else if p.clGetEventProfilingInfo.1 ≠ CL_SUCCESS then none
  else if p.clReleaseEvent ≠ CL_SUCCESS then none
  else if p.clReleaseMemObject ≠ CL_SUCCESS then none
  else if p.clReleaseCommandQueue ≠ CL_SUCCESS then none
  else some (toInt64 (toUInt64 p.clGetEventProfilingInfo.2))

/-- The constructor of `OpenCLCtx`. `counter` is the value drawn by
`GetGpuCtxCounter().fetch_add(1)`, `hostTime` the value of
`Profiler::GetTime()`, `memory` the contents of the uninitialised array
`m_query`; `none` when an assertion fails. The `GpuNewContext` record the
constructor queues is left out of the model. -/
def ctor (counter : Nat) (hostTime : Int) (p : Probe) (memory : Nat → EventInfo) :
    Option OpenCLCtx :=
  if counter = 255 then none
  else
    match GetDeviceTimestamp p with
    | none => none
    | some deviceTime =>
      some { m_contextId := counter, m_query := memory, m_head := 0, m_tail := 0,
             m_hostStartTime := hostTime, m_deviceStartTime := deviceTime }

end OpenCLCtx

/-! ## `OpenCLCtxScope` -/

/-- The data members of `OpenCLCtxScope`; the context `m_ctx` points to is
passed to each method. -/
structure OpenCLCtxScope where
  m_active : Bool
  m_event : cl_event
  m_beginQueryId : Nat
  deriving DecidableEq, Repr

/-- The scope, the memory of its context, the trace and the outcome of one
method of `OpenCLCtxScope`. -/
structure ScopeResult where
  scope : OpenCLCtxScope
  ctx : OpenCLCtx
  trace : List Effect
  outcome : Outcome

namespace OpenCLCtxScope

/-- The constructor `OpenCLCtxScope(ctx, srcLoc, is_active)`. `cpuTime` is
the value of `Profiler::GetTime()`, `thread` of `GetThreadHandle()`, and
`uninit` the contents of the member `m_beginQueryId` before it is assigned. -/
def ctor (TRACY_ON_DEMAND IsConnected : Bool) (ctx : OpenCLCtx) (srcLoc : Nat)
    (is_active : Bool) (cpuTime : Int) (thread : Nat) (uninit : Nat) : ScopeResult :=
  let m_active := if TRACY_ON_DEMAND then is_active && IsConnected else is_active
  let self : OpenCLCtxScope := ⟨m_active, nullptr, uninit⟩
  if !m_active then ⟨self, ctx, [], .returned⟩
  else
    match ctx.NextQueryId ⟨nullptr, EventPhase.Begin⟩ with
    | .error ctx1 => ⟨self, ctx1, [], .assertFailed⟩
    | .ok (id, ctx1) =>
      ⟨{ self with m_beginQueryId := id }, ctx1,
        [.queue (.GpuZoneBeginSerial cpuTime srcLoc thread (toUInt16 id) ctx1.GetId)],
        .returned⟩

/-- The constructor `OpenCLCtxScope(ctx, srcLoc, depth, is_active)`, which
also sends the call stack. -/
def ctorCallstack (TRACY_ON_DEMAND IsConnected : Bool) (ctx : OpenCLCtx) (srcLoc : Nat)
    (depth : Int) (is_active : Bool) (cpuTime : Int) (thread : Nat) (uninit : Nat) :
    ScopeResult :=
  let m_active := if TRACY_ON_DEMAND then is_active && IsConnected else is_active
  let self : OpenCLCtxScope := ⟨m_active, nullptr, uninit⟩
  if !m_active then ⟨self, ctx, [], .returned⟩
  else
    match ctx.NextQueryId ⟨nullptr, EventPhase.Begin⟩ with
    | .error ctx1 => ⟨self, ctx1, [], .assertFailed⟩
    | .ok (id, ctx1) =>
      ⟨{ self with m_beginQueryId := id }, ctx1,
        [.queue (.GpuZoneBeginCallstackSerial cpuTime srcLoc thread (toUInt16 id) ctx1.GetId),
         .sendCallstack depth],
        .returned⟩

/-- The method `SetEvent`, in the build without `NDEBUG`: the call
`clRetainEvent(m_event)` is the argument of an `assert`, and is made only in
this build (see `SetEventNDEBUG`). -/
def SetEvent (dev : Device) (self : OpenCLCtxScope) (ctx : OpenCLCtx) (event : cl_event) :
    ScopeResult :=
  let self1 := { self with m_event := event }
  if dev.clRetainEvent event ≠ CL_SUCCESS then
    ⟨self1, ctx, [.retainEvent event], .assertFailed⟩
  else
    match ctx.GetQuery self1.m_beginQueryId with
    | none => ⟨self1, ctx, [.retainEvent event], .assertFailed⟩
    | some query =>
      ⟨self1,
        { ctx with m_query := fun i =>
            if i = self1.m_beginQueryId then { query with event := event } else ctx.m_query i },
        [.retainEvent event], .returned⟩

/-- The destructor `~OpenCLCtxScope()`. -/
def dtor (self : OpenCLCtxScope) (ctx : OpenCLCtx) (cpuTime : Int) (thread : Nat) :
    ScopeResult :=
  match ctx.NextQueryId ⟨self.m_event, EventPhase.End⟩ with
  | .error ctx1 => ⟨self, ctx1, [], .assertFailed⟩
  | .ok (queryId, ctx1) =>
    ⟨self, ctx1, [.queue (.GpuZoneEndSerial cpuTime thread (toUInt16 queryId) ctx1.GetId)],
      .returned⟩

end OpenCLCtxScope

/-! ## The build with `NDEBUG`

With `NDEBUG` defined, `assert(e)` expands to nothing and `e` is not
evaluated. A variable a failed device call was to write holds what the
`Device` gives as the value written. -/

namespace OpenCLCtx

/-- The body of the loop of `Collect` in the build with `NDEBUG`: no check of
the error codes or of the timestamp, and no call of `clReleaseEvent`, which
the source makes inside `assert`. -/
def collectBodyNDEBUG (dev : Device) (s : OpenCLCtx) : List Effect × Option Outcome :=
  let eventInfo := s.m_query s.m_tail
  let event := eventInfo.event
  let eventStatus := (dev.clGetEventInfo event).2
  if eventStatus ≠ CL_COMPLETE then ([.getEventInfo event], some .returned)
  else
    let eventInfoQuery :=
      if eventInfo.phase = EventPhase.Begin then CL_PROFILING_COMMAND_START
      else CL_PROFILING_COMMAND_END
    let eventTimeStamp := toUInt64 (dev.clGetEventProfilingInfo event eventInfoQuery).2
    let item := QueueItem.GpuTime (s.TimestampOffset (toInt64 eventTimeStamp))
      (toUInt16 s.m_tail) s.m_contextId
    ([.getEventInfo event, .getEventProfilingInfo event eventInfoQuery, .queue item], none)

/-- The loop of `Collect` in the build with `NDEBUG`, run for at most `fuel`
iterations. -/
def collectLoopNDEBUG (dev : Device) : Nat → OpenCLCtx → CollectResult
  | 0, s => if s.m_tail = s.m_head then ⟨s, [], .returned⟩ else ⟨s, [], .outOfFuel⟩
  | fuel + 1, s =>
    if s.m_tail = s.m_head then ⟨s, [], .returned⟩
    else
      match collectBodyNDEBUG dev s with
      | (effects, some outcome) => ⟨s, effects, outcome⟩
      | (effects, none) =>
        let r := collectLoopNDEBUG dev fuel { s with m_tail := (s.m_tail + 1) % QueryCount }
        ⟨r.ctx, effects ++ r.trace, r.outcome⟩

/-- The method `Collect` in the build with `NDEBUG`. -/
def CollectNDEBUG (TRACY_ON_DEMAND IsConnected : Bool) (dev : Device) (s : OpenCLCtx) :
    CollectResult :=
  if s.m_tail = s.m_head then ⟨s, [], .returned⟩
  else
    let s1 := if TRACY_ON_DEMAND && !IsConnected then { s with m_head := 0, m_tail := 0 } else s
    collectLoopNDEBUG dev QueryCount s1

end OpenCLCtx

namespace OpenCLCtxScope

/-- The method `SetEvent` in the build with `NDEBUG`: no call of
`clRetainEvent`, which the source makes inside `assert`, and no bounds check
in `GetQuery`. -/
def SetEventNDEBUG (self : OpenCLCtxScope) (ctx : OpenCLCtx) (event : cl_event) :
    ScopeResult :=
  let self1 := { self with m_event := event }
  ⟨self1,
    { ctx with m_query := fun i =>
        if i = self1.m_beginQueryId then { ctx.m_query i with event := event }
        else ctx.m_query i },
    [], .returned⟩

end OpenCLCtxScope

/-! ## Reading the ring and the trace -/

namespace OpenCLCtx

/-- Both cursors index a slot of the array `m_query`. -/
def wellFormed (s : OpenCLCtx) : Prop := s.m_head < QueryCount ∧ s.m_tail < QueryCount

instance decidableWellFormed (s : OpenCLCtx) : Decidable s.wellFormed := by unfold wellFormed; infer_instance

/-- The number of outstanding slots: the distance from the tail to the head,
around the ring. -/
def pending (s : OpenCLCtx) : Nat := (s.m_head + QueryCount - s.m_tail) % QueryCount

/-- The index of the `i`-th outstanding slot, counted from the tail. -/
def slotAt (s : OpenCLCtx) (i : Nat) : Nat := (s.m_tail + i) % QueryCount

/-- The memory with the tail moved forward by `i` slots. -/
def tailAt (s : OpenCLCtx) (i : Nat) : OpenCLCtx := { s with m_tail := s.slotAt i }

/-- The indices of the outstanding slots, oldest first. -/
def pendingIds (s : OpenCLCtx) : List Nat := (List.range s.pending).map s.slotAt

/-- The event handles of the End-phase slots among the first `j` outstanding
slots, oldest first. -/
def endEvents (s : OpenCLCtx) (j : Nat) : List cl_event :=
  (((List.range j).map fun i => s.m_query (s.slotAt i)).filter
    fun info => info.phase = EventPhase.End).map EventInfo.event

/-- The record `Collect` writes for the `i`-th outstanding slot when the
profiling timestamp read for it is `timestamp`. -/
def gpuTimeItem (s : OpenCLCtx) (i : Nat) (timestamp : Nat) : QueueItem :=
  .GpuTime (s.TimestampOffset (toInt64 (toUInt64 timestamp))) (s.slotAt i) s.m_contextId

/-- The profiling parameter `Collect` asks for a slot of the given phase. -/
def profilingParam (phase : EventPhase) : Int :=
  if phase = EventPhase.Begin then CL_PROFILING_COMMAND_START else CL_PROFILING_COMMAND_END

end OpenCLCtx

/-- The records written to the queue, in order. -/
def queued (trace : List Effect) : List QueueItem :=
  trace.filterMap fun
    | .queue item => some item
    | _ => none

/-- The query ids of the `GpuTime` records written, in order. -/
def gpuTimeIds (trace : List Effect) : List Nat :=
  trace.filterMap fun
    | .queue (.GpuTime _ queryId _) => some queryId
    | _ => none

/-- The context fields of the `GpuTime` records written, in order. -/
def gpuTimeContexts (trace : List Effect) : List Nat :=
  trace.filterMap fun
    | .queue (.GpuTime _ _ context) => some context
    | _ => none

/-- The handles passed to `clReleaseEvent`, in order. -/
def released (trace : List Effect) : List cl_event :=
  trace.filterMap fun
    | .releaseEvent event => some event
    | _ => none

/-! ## Sequences of calls on one context -/

/-- One call on a context: `NextQueryId(eventInfo)`, or `Collect()` with the
connection state and the device answers at the time of the call. -/
inductive Op where
  | NextQueryId (eventInfo : EventInfo)
  | Collect (IsConnected : Bool) (dev : Device)

/-- What a sequence of calls leaves: the memory, the ids `NextQueryId`
returned, the trace of the `Collect` calls, and how the sequence ended. -/
structure RunResult where
  ctx : OpenCLCtx
  ids : List Nat
  trace : List Effect
  outcome : Outcome

/-- Run a sequence of calls in order; a call that does not return ends the
run (a failed `assert` aborts the process). -/
def runOps (TRACY_ON_DEMAND : Bool) : OpenCLCtx → List Op → RunResult
  | s, [] => ⟨s, [], [], .returned⟩
  | s, .NextQueryId eventInfo :: ops =>
    match s.NextQueryId eventInfo with
    | .error s1 => ⟨s1, [], [], .assertFailed⟩
    | .ok (id, s1) =>
      let r := runOps TRACY_ON_DEMAND s1 ops
      ⟨r.ctx, id :: r.ids, r.trace, r.outcome⟩
  | s, .Collect IsConnected dev :: ops =>
    let c := s.Collect TRACY_ON_DEMAND IsConnected dev
    if c.outcome = .returned then
      let r := runOps TRACY_ON_DEMAND c.ctx ops
      ⟨r.ctx, r.ids, c.trace ++ r.trace, r.outcome⟩
    else ⟨c.ctx, [], c.trace, c.outcome⟩

/-- Whether a call drains when it is a `Collect`: the build has no
`TRACY_ON_DEMAND`, or a consumer is connected. Holds of every other call. -/
def Op.gateOpen (TRACY_ON_DEMAND : Bool) : Op → Bool
  | .NextQueryId _ => true
  | .Collect IsConnected _ => !TRACY_ON_DEMAND || IsConnected

/-! ## Sequences of context constructions -/

/-- Modelled from the spec: the process-wide counter behind
`GetGpuCtxCounter()`, declared outside this file, "a process-wide atomically
incremented allocator for context ids". `fetch_add(1)` gives the value the
counter holds and leaves the counter one higher. -/
def fetch_add (counter : Nat) : Nat × Nat := (counter, counter + 1)

/-- The arguments of one construction: the host time, the answers to the
calibration probe and the memory the context is placed in. -/
structure CtorArgs where
  hostTime : Int
  probe : OpenCLCtx.Probe
  memory : Nat → EventInfo

/-- What a sequence of constructions leaves: the contexts built, the counter,
and how the sequence ended. -/
structure BuildResult where
  built : List OpenCLCtx
  counter : Nat
  outcome : Outcome

/-- Construct contexts one after the other, each drawing its id from the
counter; a construction whose assertion fails ends the run. -/
def constructAll : Nat → List CtorArgs → BuildResult
  | counter, [] => ⟨[], counter, .returned⟩
  | counter, args :: rest =>
    match OpenCLCtx.ctor (fetch_add counter).1 args.hostTime args.probe args.memory with
    | none => ⟨[], (fetch_add counter).2, .assertFailed⟩
    | some ctx =>
      let r := constructAll (fetch_add counter).2 rest
      ⟨ctx :: r.built, r.counter, r.outcome⟩

/-! ## Sample inputs -/

/-- The value of `CL_RUNNING` in `CL/cl.h`. -/
def CL_RUNNING : Int := 1

/-- A device as the OpenCL runtime behaves: the null handle is rejected with
`CL_INVALID_EVENT` by every call, the event with handle `9` is still running,
every other event is complete with start time `1000 + 10 * handle` and end
time five ticks later. -/
def sampleDevice : Device where
  clGetEventInfo e :=
    if e = nullptr then (CL_INVALID_EVENT, 0) else if e = 9 then (CL_SUCCESS, CL_RUNNING)
    else (CL_SUCCESS, CL_COMPLETE)
  clGetEventProfilingInfo e param :=
    if e = nullptr then (CL_INVALID_EVENT, 0)
    else if param = CL_PROFILING_COMMAND_START then (CL_SUCCESS, 1000 + 10 * e)
    else (CL_SUCCESS, 1005 + 10 * e)
  clReleaseEvent e := if e = nullptr then CL_INVALID_EVENT else CL_SUCCESS
  clRetainEvent e := if e = nullptr then CL_INVALID_EVENT else CL_SUCCESS

/-- A device that answers for every handle, the null one included: complete,
with nonzero timestamps, and every call succeeding. -/
def lenientDevice : Device where
  clGetEventInfo _ := (CL_SUCCESS, CL_COMPLETE)
  clGetEventProfilingInfo e param :=
    if param = CL_PROFILING_COMMAND_START then (CL_SUCCESS, 1000 + 10 * e)
    else (CL_SUCCESS, 1005 + 10 * e)
  clReleaseEvent _ := CL_SUCCESS
  clRetainEvent _ := CL_SUCCESS

/-- A device on which every call succeeds and every event is complete, but
whose profiling timestamps read zero. -/
def zeroTimestampDevice : Device where
  clGetEventInfo _ := (CL_SUCCESS, CL_COMPLETE)
  clGetEventProfilingInfo _ _ := (CL_SUCCESS, 0)
  clReleaseEvent _ := CL_SUCCESS
  clRetainEvent _ := CL_SUCCESS

/-- A context with id 3 and epochs 5000 (host) and 1000 (device), with the
given cursors and slots. -/
def sampleCtx (query : Nat → EventInfo) (head tail : Nat) : OpenCLCtx :=
  { m_contextId := 3, m_query := query, m_head := head, m_tail := tail,
    m_hostStartTime := 5000, m_deviceStartTime := 1000 }

/-- A zone bound to event 7 followed by a zone bound to event 9: slots 0 to 3
are outstanding. -/
def twoZones : OpenCLCtx :=
  sampleCtx (fun i =>
    if i = 0 then ⟨7, .Begin⟩ else if i = 1 then ⟨7, .End⟩
    else if i = 2 then ⟨9, .Begin⟩ else ⟨9, .End⟩) 4 0

/-- A ring that has wrapped: the slots 65535 and 0 are outstanding, bound to
event 9. -/
def wrappedRing : OpenCLCtx :=
  sampleCtx (fun i => if i = 65535 then ⟨9, .Begin⟩ else ⟨9, .End⟩) 1 65535

/-- A calibration probe on which every call succeeds, with device time 1000. -/
def sampleProbe : OpenCLCtx.Probe :=
  { clCreateCommandQueue := CL_SUCCESS, clCreateBuffer := CL_SUCCESS,
    clEnqueueWriteBuffer := CL_SUCCESS, clWaitForEvents := CL_SUCCESS,
    clGetEventInfo := (CL_SUCCESS, CL_COMPLETE), clGetEventProfilingInfo := (CL_SUCCESS, 1000),
    clReleaseEvent := CL_SUCCESS, clReleaseMemObject := CL_SUCCESS,
    clReleaseCommandQueue := CL_SUCCESS }

/-- The context the constructor builds from counter value 3, host time 5000
and `sampleProbe`, over memory whose slots all read `{nullptr, Begin}`. -/
def freshCtx : OpenCLCtx := sampleCtx (fun _ => ⟨nullptr, .Begin⟩) 0 0

/-- A zone bound to event 7, a drain, the begin of a zone bound to the
running event 9, and another drain, all with a consumer connected. -/
def sampleOps : List Op :=
  [.NextQueryId ⟨7, .Begin⟩, .NextQueryId ⟨7, .End⟩, .Collect true sampleDevice,
   .NextQueryId ⟨9, .Begin⟩, .Collect true sampleDevice]

/-- Three allocations, each followed by a `Collect`; no consumer is connected
during the second `Collect`. -/
def gatedOps : List Op :=
  [.NextQueryId ⟨7, .Begin⟩, .Collect true lenientDevice,
   .NextQueryId ⟨7, .End⟩, .Collect false lenientDevice,
   .NextQueryId ⟨8, .Begin⟩, .Collect true lenientDevice]

/-- The arguments of a construction on a working device. -/
def sampleArgs : CtorArgs := ⟨5000, sampleProbe, fun _ => ⟨nullptr, .Begin⟩⟩

/-- A scope constructed on `twoZones` with `is_active` false; its member
`m_beginQueryId` was never assigned and reads 2. -/
def inactiveScope : OpenCLCtxScope :=
  (OpenCLCtxScope.ctor false true twoZones 11 false 5100 1 2).scope

/-- A device like `sampleDevice` on which event 9 is complete but its
profiling timestamps read zero. -/
def zeroAtNineDevice : Device where
  clGetEventInfo e :=
    if e = nullptr then (CL_INVALID_EVENT, 0) else (CL_SUCCESS, CL_COMPLETE)
  clGetEventProfilingInfo e param :=
    if e = nullptr then (CL_INVALID_EVENT, 0)
    else if e = 9 then (CL_SUCCESS, 0)
    else if param = CL_PROFILING_COMMAND_START then (CL_SUCCESS, 1000 + 10 * e)
    else (CL_SUCCESS, 1005 + 10 * e)
  clReleaseEvent e := if e = nullptr then CL_INVALID_EVENT else CL_SUCCESS
  clRetainEvent e := if e = nullptr then CL_INVALID_EVENT else CL_SUCCESS

/-- The value of `CL_PROFILING_INFO_NOT_AVAILABLE` in `CL/cl.h`. -/
def CL_PROFILING_INFO_NOT_AVAILABLE : Int := -7

/-- A device like `sampleDevice` that refuses profiling information for the
running event 9 with `CL_PROFILING_INFO_NOT_AVAILABLE`. -/
def strictDevice : Device where
  clGetEventInfo e :=
    if e = nullptr then (CL_INVALID_EVENT, 0) else if e = 9 then (CL_SUCCESS, CL_RUNNING)
    else (CL_SUCCESS, CL_COMPLETE)
  clGetEventProfilingInfo e param :=
    if e = nullptr then (CL_INVALID_EVENT, 0)
    else if e = 9 then (CL_PROFILING_INFO_NOT_AVAILABLE, 0)
    else if param = CL_PROFILING_COMMAND_START then (CL_SUCCESS, 1000 + 10 * e)
    else (CL_SUCCESS, 1005 + 10 * e)
  clReleaseEvent e := if e = nullptr then CL_INVALID_EVENT else CL_SUCCESS
  clRetainEvent e := if e = nullptr then CL_INVALID_EVENT else CL_SUCCESS

/-! ## The loop of `Collect` -/

namespace OpenCLCtx

theorem tailAt_zero (s : OpenCLCtx) (h : s.wellFormed) : s.tailAt 0 = s := by
  obtain ⟨_, ht⟩ := h
  cases s
  simp only [tailAt, slotAt, Nat.add_zero] at *
  congr
  exact Nat.mod_eq_of_lt ht

theorem tailAt_step (s : OpenCLCtx) (i : Nat) :
    tailAt { s with m_tail := (s.m_tail + 1) % QueryCount } i = s.tailAt (i + 1) := by
  simp only [tailAt, slotAt]
  congr 1
  simp only [QueryCount]
  omega

theorem pending_step (s : OpenCLCtx) (h : s.wellFormed) (hne : s.m_tail ≠ s.m_head) :
    pending { s with m_tail := (s.m_tail + 1) % QueryCount } + 1 = s.pending := by
  obtain ⟨hh, ht⟩ := h
  simp only [pending, QueryCount] at *
  omega

theorem pending_eq_zero (s : OpenCLCtx) (h : s.wellFormed) : s.pending = 0 ↔ s.m_tail = s.m_head := by
  obtain ⟨hh, ht⟩ := h
  simp only [pending, QueryCount] at *
  omega

theorem wellFormed_step (s : OpenCLCtx) (h : s.wellFormed) :
    wellFormed { s with m_tail := (s.m_tail + 1) % QueryCount } := by
  obtain ⟨hh, ht⟩ := h
  simp only [wellFormed, QueryCount] at *
  omega

theorem collectLoop_spec (dev : Device) : ∀ (fuel : Nat) (s : OpenCLCtx), s.wellFormed →
    s.pending ≤ fuel →
    ∃ j tl, j ≤ s.pending ∧ (∀ i, i < j → (collectBody dev (s.tailAt i)).2 = none) ∧
      (collectLoop dev fuel s).ctx = s.tailAt j ∧
      (collectLoop dev fuel s).trace
        = (List.range j).flatMap (fun i => (collectBody dev (s.tailAt i)).1) ++ tl ∧
      ((j = s.pending ∧ tl = [] ∧ (collectLoop dev fuel s).outcome = .returned) ∨
       (j < s.pending ∧ ∃ o, collectBody dev (s.tailAt j) = (tl, some o) ∧
          (collectLoop dev fuel s).outcome = o)) := by
  intro fuel
  induction fuel with
  | zero =>
    intro s hwf hp
    have h0 : s.pending = 0 := Nat.le_zero.mp hp
    have hth := (pending_eq_zero s hwf).mp h0
    refine ⟨0, [], by omega, by intro i hi; omega, ?_, ?_, Or.inl ⟨h0.symm, rfl, ?_⟩⟩
    · simp [collectLoop, hth, tailAt_zero s hwf]
    · simp [collectLoop, hth]
    · simp [collectLoop, hth]
  | succ fuel ih =>
    intro s hwf hp
    by_cases hth : s.m_tail = s.m_head
    · have h0 := (pending_eq_zero s hwf).mpr hth
      refine ⟨0, [], by omega, by intro i hi; omega, ?_, ?_, Or.inl ⟨h0.symm, rfl, ?_⟩⟩
      · simp [collectLoop, hth, tailAt_zero s hwf]
      · simp [collectLoop, hth]
      · simp [collectLoop, hth]
    · have hstep := pending_step s hwf hth
      rcases hb : collectBody dev s with ⟨effects, _ | o⟩
      · obtain ⟨j, tl, hj, hdr, hctx, htr, hend⟩ :=
          ih { s with m_tail := (s.m_tail + 1) % QueryCount } (wellFormed_step s hwf) (by omega)
        refine ⟨j + 1, tl, by omega, ?_, ?_, ?_, ?_⟩
        · intro i hi
          cases i with
          | zero => rw [tailAt_zero s hwf, hb]
          | succ i => rw [← tailAt_step]; exact hdr i (by omega)
        · simp only [collectLoop, hth, if_false, hb]
          rw [hctx, tailAt_step]
        · simp only [collectLoop, hth, if_false, hb]
          rw [htr, List.range_succ_eq_map, List.flatMap_cons, List.flatMap_map, tailAt_zero s hwf, hb]
          simp only [List.append_assoc, tailAt_step, Function.comp_def]
        · simp only [collectLoop, hth, if_false, hb]
          rcases hend with ⟨h1, h2, h3⟩ | ⟨h1, o, h2, h3⟩
          · exact Or.inl ⟨by omega, h2, h3⟩
          · exact Or.inr ⟨by omega, o, by rw [← tailAt_step]; exact h2, h3⟩
      · refine ⟨0, effects, by omega, by intro i hi; omega, ?_, ?_, Or.inr ⟨by omega, o, ?_, ?_⟩⟩
        · simp only [collectLoop, hth, if_false, hb]
          exact (tailAt_zero s hwf).symm
        · simp only [collectLoop, hth, if_false, hb]
          simp
        · rw [tailAt_zero s hwf, hb]
        · simp only [collectLoop, hth, if_false, hb]
/-- The conditions under which the loop body drains the slot at the tail. -/
theorem collectBody_none_iff (dev : Device) (s : OpenCLCtx) :
    (collectBody dev s).2 = none ↔
      (dev.clGetEventInfo (s.m_query s.m_tail).event).1 = CL_SUCCESS ∧
      (dev.clGetEventInfo (s.m_query s.m_tail).event).2 = CL_COMPLETE ∧
      (dev.clGetEventProfilingInfo (s.m_query s.m_tail).event
        (profilingParam (s.m_query s.m_tail).phase)).1 = CL_SUCCESS ∧
      toUInt64 (dev.clGetEventProfilingInfo (s.m_query s.m_tail).event
        (profilingParam (s.m_query s.m_tail).phase)).2 ≠ 0 ∧
      ((s.m_query s.m_tail).phase = EventPhase.End →
        dev.clReleaseEvent (s.m_query s.m_tail).event = CL_SUCCESS) := by
  rcases hph : (s.m_query s.m_tail).phase <;>
  by_cases h1 : (dev.clGetEventInfo (s.m_query s.m_tail).event).1 = CL_SUCCESS <;>
  by_cases h2 : (dev.clGetEventInfo (s.m_query s.m_tail).event).2 = CL_COMPLETE <;>
  by_cases h3 : (dev.clGetEventProfilingInfo (s.m_query s.m_tail).event
      (profilingParam (s.m_query s.m_tail).phase)).1 = CL_SUCCESS <;>
  by_cases h4 : toUInt64 (dev.clGetEventProfilingInfo (s.m_query s.m_tail).event
      (profilingParam (s.m_query s.m_tail).phase)).2 = 0 <;>
  by_cases h5 : dev.clReleaseEvent (s.m_query s.m_tail).event = CL_SUCCESS <;>
  simp only [profilingParam, hph, if_true, if_false, reduceCtorEq] at h3 h4 <;>
  simp [collectBody, profilingParam, queued, released, gpuTimeIds, gpuTimeContexts, *]

/-- The loop body never reports that the model ran out of iterations. -/
theorem collectBody_ne_outOfFuel (dev : Device) (s : OpenCLCtx) :
    (collectBody dev s).2 ≠ some Outcome.outOfFuel := by
  rcases hph : (s.m_query s.m_tail).phase <;>
  by_cases h1 : (dev.clGetEventInfo (s.m_query s.m_tail).event).1 = CL_SUCCESS <;>
  by_cases h2 : (dev.clGetEventInfo (s.m_query s.m_tail).event).2 = CL_COMPLETE <;>
  by_cases h3 : (dev.clGetEventProfilingInfo (s.m_query s.m_tail).event
      (profilingParam (s.m_query s.m_tail).phase)).1 = CL_SUCCESS <;>
  by_cases h4 : toUInt64 (dev.clGetEventProfilingInfo (s.m_query s.m_tail).event
      (profilingParam (s.m_query s.m_tail).phase)).2 = 0 <;>
  by_cases h5 : dev.clReleaseEvent (s.m_query s.m_tail).event = CL_SUCCESS <;>
  simp only [profilingParam, hph, if_true, if_false, reduceCtorEq] at h3 h4 <;>
  simp [collectBody, profilingParam, queued, released, gpuTimeIds, gpuTimeContexts, *]

theorem queued_collectBody_none (dev : Device) (s : OpenCLCtx)
    (h : (collectBody dev s).2 = none) :
    queued (collectBody dev s).1 =
      [QueueItem.GpuTime (s.TimestampOffset (toInt64 (toUInt64
        (dev.clGetEventProfilingInfo (s.m_query s.m_tail).event
          (profilingParam (s.m_query s.m_tail).phase)).2)))
        (toUInt16 s.m_tail) s.m_contextId] := by
  revert h
  rcases hph : (s.m_query s.m_tail).phase <;>
  by_cases h1 : (dev.clGetEventInfo (s.m_query s.m_tail).event).1 = CL_SUCCESS <;>
  by_cases h2 : (dev.clGetEventInfo (s.m_query s.m_tail).event).2 = CL_COMPLETE <;>
  by_cases h3 : (dev.clGetEventProfilingInfo (s.m_query s.m_tail).event
      (profilingParam (s.m_query s.m_tail).phase)).1 = CL_SUCCESS <;>
  by_cases h4 : toUInt64 (dev.clGetEventProfilingInfo (s.m_query s.m_tail).event
      (profilingParam (s.m_query s.m_tail).phase)).2 = 0 <;>
  by_cases h5 : dev.clReleaseEvent (s.m_query s.m_tail).event = CL_SUCCESS <;>
  simp only [profilingParam, hph, if_true, if_false, reduceCtorEq] at h3 h4 <;>
  simp [collectBody, profilingParam, queued, released, gpuTimeIds, gpuTimeContexts, *]

theorem released_collectBody_none (dev : Device) (s : OpenCLCtx)
    (h : (collectBody dev s).2 = none) :
    released (collectBody dev s).1 =
      if (s.m_query s.m_tail).phase = EventPhase.End then [(s.m_query s.m_tail).event] else [] := by
  revert h
  rcases hph : (s.m_query s.m_tail).phase <;>
  by_cases h1 : (dev.clGetEventInfo (s.m_query s.m_tail).event).1 = CL_SUCCESS <;>
  by_cases h2 : (dev.clGetEventInfo (s.m_query s.m_tail).event).2 = CL_COMPLETE <;>
  by_cases h3 : (dev.clGetEventProfilingInfo (s.m_query s.m_tail).event
      (profilingParam (s.m_query s.m_tail).phase)).1 = CL_SUCCESS <;>
  by_cases h4 : toUInt64 (dev.clGetEventProfilingInfo (s.m_query s.m_tail).event
      (profilingParam (s.m_query s.m_tail).phase)).2 = 0 <;>
  by_cases h5 : dev.clReleaseEvent (s.m_query s.m_tail).event = CL_SUCCESS <;>
  simp only [profilingParam, hph, if_true, if_false, reduceCtorEq] at h3 h4 <;>
  simp [collectBody, profilingParam, queued, released, gpuTimeIds, gpuTimeContexts, *]

theorem collectBody_some (dev : Device) (s : OpenCLCtx) (o : Outcome)
    (h : (collectBody dev s).2 = some o) :
    (gpuTimeIds (collectBody dev s).1 = [] ∧ released (collectBody dev s).1 = []) ∨
    (o = Outcome.assertFailed ∧
      (dev.clGetEventInfo (s.m_query s.m_tail).event).2 = CL_COMPLETE ∧
      (s.m_query s.m_tail).phase = EventPhase.End ∧
      dev.clReleaseEvent (s.m_query s.m_tail).event ≠ CL_SUCCESS ∧
      gpuTimeIds (collectBody dev s).1 = [toUInt16 s.m_tail] ∧
      released (collectBody dev s).1 = [(s.m_query s.m_tail).event]) := by
  revert h
  rcases hph : (s.m_query s.m_tail).phase <;>
  by_cases h1 : (dev.clGetEventInfo (s.m_query s.m_tail).event).1 = CL_SUCCESS <;>
  by_cases h2 : (dev.clGetEventInfo (s.m_query s.m_tail).event).2 = CL_COMPLETE <;>
  by_cases h3 : (dev.clGetEventProfilingInfo (s.m_query s.m_tail).event
      (profilingParam (s.m_query s.m_tail).phase)).1 = CL_SUCCESS <;>
  by_cases h4 : toUInt64 (dev.clGetEventProfilingInfo (s.m_query s.m_tail).event
      (profilingParam (s.m_query s.m_tail).phase)).2 = 0 <;>
  by_cases h5 : dev.clReleaseEvent (s.m_query s.m_tail).event = CL_SUCCESS <;>
  simp only [profilingParam, hph, if_true, if_false, reduceCtorEq] at h3 h4 <;>
  simp [collectBody, profilingParam, queued, released, gpuTimeIds, gpuTimeContexts, *]
  exact fun h => h.symm

theorem gpuTimeContexts_collectBody (dev : Device) (s : OpenCLCtx) :
    ∀ c ∈ gpuTimeContexts (collectBody dev s).1, c = s.m_contextId := by
  rcases hph : (s.m_query s.m_tail).phase <;>
  by_cases h1 : (dev.clGetEventInfo (s.m_query s.m_tail).event).1 = CL_SUCCESS <;>
  by_cases h2 : (dev.clGetEventInfo (s.m_query s.m_tail).event).2 = CL_COMPLETE <;>
  by_cases h3 : (dev.clGetEventProfilingInfo (s.m_query s.m_tail).event
      (profilingParam (s.m_query s.m_tail).phase)).1 = CL_SUCCESS <;>
  by_cases h4 : toUInt64 (dev.clGetEventProfilingInfo (s.m_query s.m_tail).event
      (profilingParam (s.m_query s.m_tail).phase)).2 = 0 <;>
  by_cases h5 : dev.clReleaseEvent (s.m_query s.m_tail).event = CL_SUCCESS <;>
  simp only [profilingParam, hph, if_true, if_false, reduceCtorEq] at h3 h4 <;>
  simp [collectBody, profilingParam, queued, released, gpuTimeIds, gpuTimeContexts, *]

theorem collectBody_not_complete (dev : Device) (s : OpenCLCtx)
    (h : (dev.clGetEventInfo (s.m_query s.m_tail).event).2 ≠ CL_COMPLETE) :
    (collectBody dev s).2 ≠ none ∧ queued (collectBody dev s).1 = [] := by
  rcases hph : (s.m_query s.m_tail).phase <;>
  by_cases h1 : (dev.clGetEventInfo (s.m_query s.m_tail).event).1 = CL_SUCCESS <;>
  by_cases h2 : (dev.clGetEventInfo (s.m_query s.m_tail).event).2 = CL_COMPLETE <;>
  by_cases h3 : (dev.clGetEventProfilingInfo (s.m_query s.m_tail).event
      (profilingParam (s.m_query s.m_tail).phase)).1 = CL_SUCCESS <;>
  by_cases h4 : toUInt64 (dev.clGetEventProfilingInfo (s.m_query s.m_tail).event
      (profilingParam (s.m_query s.m_tail).phase)).2 = 0 <;>
  by_cases h5 : dev.clReleaseEvent (s.m_query s.m_tail).event = CL_SUCCESS <;>
  simp only [profilingParam, hph, if_true, if_false, reduceCtorEq] at h3 h4 <;>
  simp [collectBody, profilingParam, queued, released, gpuTimeIds, gpuTimeContexts, *] <;>
  exact absurd h2 h

theorem gpuTimeIds_eq (trace : List Effect) :
    gpuTimeIds trace = (queued trace).filterMap fun
      | .GpuTime _ q _ => some q
      | _ => none := by
  induction trace with
  | nil => rfl
  | cons e t ih =>
    cases e with
    | queue item => cases item <;> simp_all [gpuTimeIds, queued, List.filterMap_cons]
    | _ => simp_all [gpuTimeIds, queued, List.filterMap_cons]

theorem filterMap_flatMap_eq_map {α β γ : Type} (p : β → Option γ) (f : α → List β) (g : α → γ)
    (l : List α) (h : ∀ a ∈ l, (f a).filterMap p = [g a]) :
    (l.flatMap f).filterMap p = l.map g := by
  induction l with
  | nil => rfl
  | cons a l ih =>
    rw [List.flatMap_cons, List.filterMap_append, h a (List.mem_cons_self a l),
      ih fun b hb => h b (List.mem_cons_of_mem a hb)]
    rfl

theorem filterMap_flatMap {α β γ : Type} (p : β → Option γ) (f : α → List β) (l : List α) :
    (l.flatMap f).filterMap p = l.flatMap fun a => (f a).filterMap p := by
  induction l with
  | nil => rfl
  | cons a l ih => rw [List.flatMap_cons, List.filterMap_append, ih, List.flatMap_cons]

theorem pending_lt (s : OpenCLCtx) : s.pending < QueryCount :=
  Nat.mod_lt _ (by decide)

theorem slotAt_lt (s : OpenCLCtx) (i : Nat) : s.slotAt i < QueryCount :=
  Nat.mod_lt _ (by decide)

theorem toUInt16_slotAt (s : OpenCLCtx) (i : Nat) : toUInt16 (s.slotAt i) = s.slotAt i := by
  have h := slotAt_lt s i
  simp only [toUInt16, QueryCount] at *
  omega

theorem slotAt_inj (s : OpenCLCtx) (i j : Nat) (hi : i < QueryCount) (hj : j < QueryCount)
    (h : s.slotAt i = s.slotAt j) : i = j := by
  simp only [slotAt, QueryCount] at *
  omega

theorem slotAt_pending (s : OpenCLCtx) (h : s.wellFormed) : s.slotAt s.pending = s.m_head := by
  obtain ⟨hh, ht⟩ := h
  simp only [slotAt, pending, QueryCount] at *
  omega

theorem Collect_gate_open (TRACY_ON_DEMAND IsConnected : Bool) (dev : Device) (s : OpenCLCtx)
    (hgate : TRACY_ON_DEMAND = false ∨ IsConnected = true) :
    s.Collect TRACY_ON_DEMAND IsConnected dev = collectLoop dev QueryCount s := by
  have hq : QueryCount = 65535 + 1 := by decide
  rw [hq]
  by_cases hth : s.m_tail = s.m_head
  · simp [Collect, collectLoop, hth]
  · rcases hgate with h | h <;> simp [Collect, hth, h, hq]

theorem Collect_gate_closed (dev : Device) (s : OpenCLCtx) (hth : s.m_tail ≠ s.m_head) :
    s.Collect true false dev = ⟨{ s with m_head := 0, m_tail := 0 }, [], .returned⟩ := by
  have hq : QueryCount = 65535 + 1 := by decide
  simp [Collect, hth, hq, collectLoop]

theorem Collect_empty (TRACY_ON_DEMAND IsConnected : Bool) (dev : Device) (s : OpenCLCtx)
    (hth : s.m_tail = s.m_head) :
    s.Collect TRACY_ON_DEMAND IsConnected dev = ⟨s, [], .returned⟩ := by
  simp [Collect, hth]

theorem Collect_spec (TRACY_ON_DEMAND IsConnected : Bool) (dev : Device) (s : OpenCLCtx)
    (hgate : TRACY_ON_DEMAND = false ∨ IsConnected = true) (hwf : s.wellFormed) :
    ∃ j tl, j ≤ s.pending ∧ (∀ i, i < j → (collectBody dev (s.tailAt i)).2 = none) ∧
      (s.Collect TRACY_ON_DEMAND IsConnected dev).ctx = s.tailAt j ∧
      (s.Collect TRACY_ON_DEMAND IsConnected dev).trace
        = (List.range j).flatMap (fun i => (collectBody dev (s.tailAt i)).1) ++ tl ∧
      ((j = s.pending ∧ tl = [] ∧
          (s.Collect TRACY_ON_DEMAND IsConnected dev).outcome = .returned) ∨
       (j < s.pending ∧ ∃ o, collectBody dev (s.tailAt j) = (tl, some o) ∧
          (s.Collect TRACY_ON_DEMAND IsConnected dev).outcome = o)) := by
  rw [Collect_gate_open TRACY_ON_DEMAND IsConnected dev s hgate]
  exact collectLoop_spec dev QueryCount s hwf (Nat.le_of_lt (pending_lt s))

/-- On a well-formed ring the loop of `Collect` ends within `QueryCount`
iterations: the call returns or fails an assertion. -/
theorem Collect_terminates (TRACY_ON_DEMAND IsConnected : Bool) (dev : Device) (s : OpenCLCtx)
    (hwf : s.wellFormed) :
    (s.Collect TRACY_ON_DEMAND IsConnected dev).outcome ≠ .outOfFuel := by
  by_cases hgate : TRACY_ON_DEMAND = false ∨ IsConnected = true
  · obtain ⟨j, tl, -, -, -, -, hend⟩ := Collect_spec TRACY_ON_DEMAND IsConnected dev s hgate hwf
    rcases hend with ⟨-, -, hout⟩ | ⟨-, o, hbody, hout⟩
    · rw [hout]; simp
    · rw [hout]
      intro ho
      apply collectBody_ne_outOfFuel dev (s.tailAt j)
      rw [hbody, ho]
  · have h1 : TRACY_ON_DEMAND = true := by cases TRACY_ON_DEMAND <;> simp_all
    have h2 : IsConnected = false := by cases IsConnected <;> simp_all
    subst h1 h2
    by_cases hth : s.m_tail = s.m_head
    · rw [Collect_empty true false dev s hth]; simp
    · rw [Collect_gate_closed dev s hth]; simp

theorem gpuTimeIds_drained (dev : Device) (s : OpenCLCtx) (j : Nat)
    (h : ∀ i, i < j → (collectBody dev (s.tailAt i)).2 = none) :
    gpuTimeIds ((List.range j).flatMap fun i => (collectBody dev (s.tailAt i)).1)
      = (List.range j).map s.slotAt := by
  unfold gpuTimeIds
  apply filterMap_flatMap_eq_map
  intro i hi
  have h1 := queued_collectBody_none dev (s.tailAt i) (h i (List.mem_range.mp hi))
  have h2 := gpuTimeIds_eq (collectBody dev (s.tailAt i)).1
  rw [h1] at h2
  simp only [gpuTimeIds] at h2
  rw [h2]
  simp [tailAt, toUInt16_slotAt]

/-! ## C1: `Collect` and a slot that is not complete -/

/-- C1 (amended). In a well-formed ring, let the `k`-th outstanding slot hold
an event whose status is not `CL_COMPLETE`. Then one `Collect` call writes no
`GpuTime` record with the query id of that slot or of any slot allocated
after it, whatever the connection state; and when the call drains (the build
has no `TRACY_ON_DEMAND`, or a consumer is connected) the new tail is an
outstanding slot at or before the `k`-th one and the head is unchanged. -/
theorem Collect_stops_at_incomplete (TRACY_ON_DEMAND IsConnected : Bool) (dev : Device)
    (s : OpenCLCtx) (k : Nat) (hwf : s.wellFormed) (hk : k < s.pending)
    (hnc : (dev.clGetEventInfo (s.m_query (s.slotAt k)).event).2 ≠ CL_COMPLETE) :
    (∀ i, k ≤ i → i < s.pending →
      s.slotAt i ∉ gpuTimeIds (s.Collect TRACY_ON_DEMAND IsConnected dev).trace) ∧
    ((TRACY_ON_DEMAND = false ∨ IsConnected = true) →
      ∃ j, j ≤ k ∧ (s.Collect TRACY_ON_DEMAND IsConnected dev).ctx.m_tail = s.slotAt j ∧
        (s.Collect TRACY_ON_DEMAND IsConnected dev).ctx.m_head = s.m_head) := by
  have hpq := pending_lt s
  have hopen : (TRACY_ON_DEMAND = false ∨ IsConnected = true) →
      (∀ i, k ≤ i → i < s.pending →
        s.slotAt i ∉ gpuTimeIds (s.Collect TRACY_ON_DEMAND IsConnected dev).trace) ∧
      ∃ j, j ≤ k ∧ (s.Collect TRACY_ON_DEMAND IsConnected dev).ctx.m_tail = s.slotAt j ∧
        (s.Collect TRACY_ON_DEMAND IsConnected dev).ctx.m_head = s.m_head := by
    intro hgate
    obtain ⟨j, tl, hj, hdr, hctx, htr, hend⟩ :=
      Collect_spec TRACY_ON_DEMAND IsConnected dev s hgate hwf
    have hkbody := collectBody_not_complete dev (s.tailAt k) hnc
    have hjk : j ≤ k := by
      by_contra hlt
      exact hkbody.1 (hdr k (by omega))
    refine ⟨?_, j, hjk, by rw [hctx]; rfl, by rw [hctx]; rfl⟩
    intro i hki hip hmem
    rw [htr] at hmem
    simp only [gpuTimeIds, List.filterMap_append, List.mem_append] at hmem
    rcases hmem with hmem | hmem
    · have hd := gpuTimeIds_drained dev s j hdr
      simp only [gpuTimeIds] at hd
      rw [hd, List.mem_map] at hmem
      obtain ⟨a, ha, hai⟩ := hmem
      have := slotAt_inj s a i (by have := List.mem_range.mp ha; omega) (by omega) hai
      have := List.mem_range.mp ha
      omega
    · rcases hend with ⟨_, h2, _⟩ | ⟨hjp, o, hbody, _⟩
      · rw [h2] at hmem; simp at hmem
      · have hsome : (collectBody dev (s.tailAt j)).2 = some o := by rw [hbody]
        have htl : (collectBody dev (s.tailAt j)).1 = tl := by rw [hbody]
        rcases collectBody_some dev (s.tailAt j) o hsome with ⟨h1, _⟩ | ⟨_, hc, _, _, h1, _⟩
        · rw [htl] at h1
          simp only [gpuTimeIds] at h1
          rw [h1] at hmem; simp at hmem
        · rw [htl] at h1
          simp only [gpuTimeIds] at h1
          rw [h1] at hmem
          simp only [List.mem_singleton, tailAt, toUInt16_slotAt] at hmem
          have hji := slotAt_inj s i j (by omega) (by omega) hmem
          have : j = k := by omega
          subst this
          exact hnc hc
  refine ⟨?_, fun hgate => (hopen hgate).2⟩
  cases TRACY_ON_DEMAND <;> cases IsConnected
  · exact (hopen (Or.inl rfl)).1
  · exact (hopen (Or.inl rfl)).1
  · intro i _ _
    have hth : s.m_tail ≠ s.m_head := fun h => by
      have := (pending_eq_zero s hwf).mpr h
      omega
    rw [Collect_gate_closed dev s hth]
    simp [gpuTimeIds]
  · exact (hopen (Or.inr rfl)).1

/-- C1 (witness). Two zones are outstanding, the
second bound to an event that is still running (offset 2). -/
theorem Collect_stops_at_incomplete_witness :
    (∀ i, 2 ≤ i → i < twoZones.pending →
      twoZones.slotAt i ∉ gpuTimeIds (twoZones.Collect false true sampleDevice).trace) ∧
    ((false = false ∨ true = true) →
      ∃ j, j ≤ 2 ∧ (twoZones.Collect false true sampleDevice).ctx.m_tail = twoZones.slotAt j ∧
        (twoZones.Collect false true sampleDevice).ctx.m_head = twoZones.m_head) :=
  Collect_stops_at_incomplete false true sampleDevice twoZones 2 (by decide) (by decide)
    (by decide)

/-- C1 (counterexample). With `TRACY_ON_DEMAND` and no consumer connected,
`Collect` on a wrapped ring whose oldest slot, index 65535, holds a running
event sets the tail to 0, the slot after it: no `j ≤ 0` has the new tail at
the `j`-th outstanding slot. -/
theorem Collect_gate_closed_moves_tail :
    wrappedRing.wellFormed ∧ 0 < wrappedRing.pending ∧ wrappedRing.slotAt 0 = 65535 ∧
    (sampleDevice.clGetEventInfo (wrappedRing.m_query (wrappedRing.slotAt 0)).event).2
      ≠ CL_COMPLETE ∧
    (wrappedRing.Collect true false sampleDevice).ctx.m_tail = wrappedRing.slotAt 1 ∧
    ¬ ∃ j, j ≤ 0 ∧ (wrappedRing.Collect true false sampleDevice).ctx.m_tail
      = wrappedRing.slotAt j := by
  refine ⟨by decide, by decide, by decide, by decide, by decide, ?_⟩
  rintro ⟨j, hj, h⟩
  obtain rfl : j = 0 := by omega
  revert h
  decide

/-! ## C2: `Collect` drains the completed slots at the tail -/

theorem collectBody_returned (dev : Device) (s : OpenCLCtx)
    (h1 : (dev.clGetEventInfo (s.m_query s.m_tail).event).1 = CL_SUCCESS)
    (h2 : (dev.clGetEventInfo (s.m_query s.m_tail).event).2 ≠ CL_COMPLETE) :
    collectBody dev s = ([.getEventInfo (s.m_query s.m_tail).event], some .returned) := by
  simp [collectBody, h1, h2]

theorem queued_drained (dev : Device) (s : OpenCLCtx) (j : Nat)
    (h : ∀ i, i < j → (collectBody dev (s.tailAt i)).2 = none) :
    queued ((List.range j).flatMap fun i => (collectBody dev (s.tailAt i)).1)
      = (List.range j).map fun i => s.gpuTimeItem i
          (dev.clGetEventProfilingInfo (s.m_query (s.slotAt i)).event
            (profilingParam (s.m_query (s.slotAt i)).phase)).2 := by
  unfold queued
  apply filterMap_flatMap_eq_map
  intro i hi
  have h1 := queued_collectBody_none dev (s.tailAt i) (h i (List.mem_range.mp hi))
  simp only [queued] at h1
  rw [h1]
  simp [tailAt, toUInt16_slotAt, gpuTimeItem, TimestampOffset]

/-- C2 (amended). With the drain not gated off (no `TRACY_ON_DEMAND`, or a
consumer connected), a well-formed ring, every device call that `Collect`
makes succeeding and every profiling timestamp it reads being nonzero (a slot
is inspected only when all the outstanding slots before it are complete; its
timestamp is read, and its event released when the phase is End, only when it
is complete itself), `Collect` returns having drained exactly the longest run
of complete slots at the tail: there is `j` such that the first `j`
outstanding slots are complete and the next one, if any, is not; the records
written are one `GpuTime` per slot of that run, in order, each with the slot
index as query id; the new tail is the `j`-th outstanding slot (the head when
all were complete) and nothing else in the context changes. On an empty ring
nothing is written or changed. -/
theorem Collect_drains_completed_run (TRACY_ON_DEMAND IsConnected : Bool) (dev : Device)
    (s : OpenCLCtx) (hgate : TRACY_ON_DEMAND = false ∨ IsConnected = true)
    (hwf : s.wellFormed)
    (hcalls : ∀ i, i < s.pending →
      (∀ k, k < i → (dev.clGetEventInfo (s.m_query (s.slotAt k)).event).2 = CL_COMPLETE) →
      (dev.clGetEventInfo (s.m_query (s.slotAt i)).event).1 = CL_SUCCESS ∧
      ((dev.clGetEventInfo (s.m_query (s.slotAt i)).event).2 = CL_COMPLETE →
        (dev.clGetEventProfilingInfo (s.m_query (s.slotAt i)).event
          (profilingParam (s.m_query (s.slotAt i)).phase)).1 = CL_SUCCESS ∧
        toUInt64 (dev.clGetEventProfilingInfo (s.m_query (s.slotAt i)).event
          (profilingParam (s.m_query (s.slotAt i)).phase)).2 ≠ 0 ∧
        ((s.m_query (s.slotAt i)).phase = EventPhase.End →
          dev.clReleaseEvent (s.m_query (s.slotAt i)).event = CL_SUCCESS))) :
    ∃ j, j ≤ s.pending ∧
      (∀ i, i < j → (dev.clGetEventInfo (s.m_query (s.slotAt i)).event).2 = CL_COMPLETE) ∧
      (j < s.pending → (dev.clGetEventInfo (s.m_query (s.slotAt j)).event).2 ≠ CL_COMPLETE) ∧
      (s.Collect TRACY_ON_DEMAND IsConnected dev).outcome = .returned ∧
      (s.Collect TRACY_ON_DEMAND IsConnected dev).ctx = s.tailAt j ∧
      (j = s.pending → (s.Collect TRACY_ON_DEMAND IsConnected dev).ctx.m_tail = s.m_head) ∧
      queued (s.Collect TRACY_ON_DEMAND IsConnected dev).trace
        = (List.range j).map (fun i => s.gpuTimeItem i
            (dev.clGetEventProfilingInfo (s.m_query (s.slotAt i)).event
              (profilingParam (s.m_query (s.slotAt i)).phase)).2) ∧
      (s.m_head = s.m_tail →
        (s.Collect TRACY_ON_DEMAND IsConnected dev).ctx = s ∧
        (s.Collect TRACY_ON_DEMAND IsConnected dev).trace = []) := by
  obtain ⟨j, tl, hj, hdr, hctx, htr, hend⟩ :=
    Collect_spec TRACY_ON_DEMAND IsConnected dev s hgate hwf
  have hcomplete : ∀ i, i < j →
      (dev.clGetEventInfo (s.m_query (s.slotAt i)).event).2 = CL_COMPLETE := fun i hi =>
    ((collectBody_none_iff dev (s.tailAt i)).mp (hdr i hi)).2.1
  have hempty : s.m_head = s.m_tail →
      (s.Collect TRACY_ON_DEMAND IsConnected dev).ctx = s ∧
      (s.Collect TRACY_ON_DEMAND IsConnected dev).trace = [] := fun h => by
    rw [Collect_empty TRACY_ON_DEMAND IsConnected dev s h.symm]
    exact ⟨rfl, rfl⟩
  rcases hend with ⟨hjp, htl, hout⟩ | ⟨hjp, o, hbody, hout⟩
  · refine ⟨j, hj, hcomplete, fun h => by omega, hout, hctx, ?_, ?_, hempty⟩
    · intro _
      rw [hctx, hjp]
      exact slotAt_pending s hwf
    · rw [htr, htl, List.append_nil]
      exact queued_drained dev s j hdr
  · have hreached := hcalls j hjp hcomplete
    have hsome : (collectBody dev (s.tailAt j)).2 ≠ none := by rw [hbody]; simp
    have hncj : (dev.clGetEventInfo (s.m_query (s.slotAt j)).event).2 ≠ CL_COMPLETE := by
      intro hc
      apply hsome
      rw [collectBody_none_iff]
      exact ⟨hreached.1, hc, (hreached.2 hc).1, (hreached.2 hc).2.1, (hreached.2 hc).2.2⟩
    have hret := collectBody_returned dev (s.tailAt j) hreached.1 hncj
    rw [hbody] at hret
    have htl : tl = [.getEventInfo (s.m_query (s.slotAt j)).event] := (Prod.mk.inj hret).1
    have ho : o = .returned := Option.some.inj (Prod.mk.inj hret).2
    refine ⟨j, hj, hcomplete, fun _ => hncj, by rw [hout, ho], hctx, fun h => by omega, ?_,
      hempty⟩
    rw [htr, htl]
    simp only [queued, List.filterMap_append]
    have hq := queued_drained dev s j hdr
    simp only [queued] at hq
    rw [hq]
    simp

/-- C2 (witness). Two zones are outstanding on `strictDevice`: the first is
bound to a complete event, the second to a running event, for which the
device refuses every profiling query; `Collect` stops at the third slot. -/
theorem Collect_drains_completed_run_witness :
    (strictDevice.clGetEventProfilingInfo 9 CL_PROFILING_COMMAND_START).1 ≠ CL_SUCCESS ∧
    (twoZones.Collect false true strictDevice).ctx.m_tail = 2 ∧
    ∃ j, j ≤ twoZones.pending ∧
      (∀ i, i < j →
        (strictDevice.clGetEventInfo (twoZones.m_query (twoZones.slotAt i)).event).2
          = CL_COMPLETE) ∧
      (j < twoZones.pending →
        (strictDevice.clGetEventInfo (twoZones.m_query (twoZones.slotAt j)).event).2
          ≠ CL_COMPLETE) ∧
      (twoZones.Collect false true strictDevice).outcome = .returned ∧
      (twoZones.Collect false true strictDevice).ctx = twoZones.tailAt j ∧
      (j = twoZones.pending →
        (twoZones.Collect false true strictDevice).ctx.m_tail = twoZones.m_head) ∧
      queued (twoZones.Collect false true strictDevice).trace
        = (List.range j).map (fun i => twoZones.gpuTimeItem i
            (strictDevice.clGetEventProfilingInfo (twoZones.m_query (twoZones.slotAt i)).event
              (profilingParam (twoZones.m_query (twoZones.slotAt i)).phase)).2) ∧
      (twoZones.m_head = twoZones.m_tail →
        (twoZones.Collect false true strictDevice).ctx = twoZones ∧
        (twoZones.Collect false true strictDevice).trace = []) :=
  ⟨by decide, by decide,
    Collect_drains_completed_run false true strictDevice twoZones (Or.inl rfl) (by decide)
      (by decide)⟩

/-- C2 (counterexample). Every device call succeeds and every event is
complete, a consumer is connected, but the timestamps read zero: `Collect`
fails its assertion at the first slot, writes no record and leaves the tail at
0, although all four outstanding slots are complete. -/
theorem Collect_zero_timestamp_drains_nothing :
    (∀ e, (zeroTimestampDevice.clGetEventInfo e) = (CL_SUCCESS, CL_COMPLETE)) ∧
    (∀ e p, (zeroTimestampDevice.clGetEventProfilingInfo e p).1 = CL_SUCCESS) ∧
    (∀ e, zeroTimestampDevice.clReleaseEvent e = CL_SUCCESS) ∧
    twoZones.pending = 4 ∧
    (twoZones.Collect false true zeroTimestampDevice).outcome = .assertFailed ∧
    (twoZones.Collect false true zeroTimestampDevice).ctx.m_tail = 0 ∧
    queued (twoZones.Collect false true zeroTimestampDevice).trace = [] :=
  ⟨fun _ => rfl, fun _ _ => rfl, fun _ => rfl, by decide, by decide, by decide, by decide⟩

/-! ## C3: records come out in allocation order -/

theorem NextQueryId_ok (s : OpenCLCtx) (info : EventInfo)
    (h : (s.m_head + 1) % QueryCount ≠ s.m_tail) :
    s.NextQueryId info = .ok (s.m_head,
      { s with m_head := (s.m_head + 1) % QueryCount,
               m_query := fun i => if i = s.m_head then info else s.m_query i }) := by
  simp [NextQueryId, h]

theorem NextQueryId_error (s : OpenCLCtx) (info : EventInfo)
    (h : (s.m_head + 1) % QueryCount = s.m_tail) :
    s.NextQueryId info = .error { s with m_head := (s.m_head + 1) % QueryCount } := by
  simp [NextQueryId, h]

theorem pendingIds_alloc (s : OpenCLCtx) (q : Nat → EventInfo) (hwf : s.wellFormed)
    (h : (s.m_head + 1) % QueryCount ≠ s.m_tail) :
    pendingIds { s with m_head := (s.m_head + 1) % QueryCount, m_query := q }
      = s.pendingIds ++ [s.m_head] := by
  have hp : pending { s with m_head := (s.m_head + 1) % QueryCount, m_query := q }
      = s.pending + 1 := by
    obtain ⟨hh, ht⟩ := hwf
    simp only [pending, QueryCount] at *
    omega
  have hs : slotAt { s with m_head := (s.m_head + 1) % QueryCount, m_query := q } = s.slotAt :=
    rfl
  simp only [pendingIds, hp, hs, List.range_succ, List.map_append, List.map_singleton,
    slotAt_pending s hwf]

theorem wellFormed_alloc (s : OpenCLCtx) (q : Nat → EventInfo) (hwf : s.wellFormed) :
    wellFormed { s with m_head := (s.m_head + 1) % QueryCount, m_query := q } :=
  ⟨Nat.mod_lt _ (by decide), hwf.2⟩

theorem wellFormed_tailAt (s : OpenCLCtx) (hwf : s.wellFormed) (j : Nat) :
    (s.tailAt j).wellFormed :=
  ⟨hwf.1, slotAt_lt s j⟩

theorem pendingIds_tailAt (s : OpenCLCtx) (hwf : s.wellFormed) (j : Nat) (hj : j ≤ s.pending) :
    s.pendingIds = (List.range j).map s.slotAt ++ (s.tailAt j).pendingIds := by
  have hp : s.pending = j + (s.tailAt j).pending := by
    obtain ⟨hh, ht⟩ := hwf
    simp only [pending, tailAt, slotAt, QueryCount] at *
    omega
  have hs : ∀ i, (s.tailAt j).slotAt i = s.slotAt (j + i) := by
    intro i
    simp only [tailAt, slotAt, QueryCount]
    omega
  unfold pendingIds
  rw [hp, List.range_add, List.map_append, List.map_map]
  congr 1
  apply List.map_congr_left
  intro i _
  simp [hs]

/-- The query ids one draining `Collect` call writes. -/
theorem Collect_gpuTimeIds (TRACY_ON_DEMAND IsConnected : Bool) (dev : Device) (s : OpenCLCtx)
    (hgate : TRACY_ON_DEMAND = false ∨ IsConnected = true) (hwf : s.wellFormed) :
    ∃ j, j ≤ s.pending ∧ (s.Collect TRACY_ON_DEMAND IsConnected dev).ctx = s.tailAt j ∧
      ((gpuTimeIds (s.Collect TRACY_ON_DEMAND IsConnected dev).trace = (List.range j).map s.slotAt)
        ∨ ((s.Collect TRACY_ON_DEMAND IsConnected dev).outcome = .assertFailed ∧ j < s.pending ∧
            gpuTimeIds (s.Collect TRACY_ON_DEMAND IsConnected dev).trace
              = (List.range (j + 1)).map s.slotAt)) := by
  obtain ⟨j, tl, hj, hdr, hctx, htr, hend⟩ :=
    Collect_spec TRACY_ON_DEMAND IsConnected dev s hgate hwf
  have hd := gpuTimeIds_drained dev s j hdr
  simp only [gpuTimeIds] at hd
  refine ⟨j, hj, hctx, ?_⟩
  rcases hend with ⟨_, htl, _⟩ | ⟨hjp, o, hbody, hout⟩
  · left
    rw [htr, htl, List.append_nil]
    exact hd
  · have hsome : (collectBody dev (s.tailAt j)).2 = some o := by rw [hbody]
    have htl : (collectBody dev (s.tailAt j)).1 = tl := by rw [hbody]
    rcases collectBody_some dev (s.tailAt j) o hsome with ⟨h1, _⟩ | ⟨ho, _, _, _, h1, _⟩
    · left
      rw [htl] at h1
      simp only [gpuTimeIds] at h1
      simp only [htr, gpuTimeIds, List.filterMap_append, h1, hd, List.append_nil]
    · right
      rw [htl] at h1
      simp only [gpuTimeIds] at h1
      refine ⟨by rw [hout, ho], hjp, ?_⟩
      rw [htr]
      simp only [gpuTimeIds, List.filterMap_append]
      rw [hd, h1]
      simp only [List.range_succ, List.map_append, List.map_singleton, tailAt, toUInt16_slotAt]

theorem gpuTimeContexts_Collect (TRACY_ON_DEMAND IsConnected : Bool) (dev : Device)
    (s : OpenCLCtx) (hgate : TRACY_ON_DEMAND = false ∨ IsConnected = true) (hwf : s.wellFormed) :
    ∀ c ∈ gpuTimeContexts (s.Collect TRACY_ON_DEMAND IsConnected dev).trace,
      c = s.m_contextId := by
  obtain ⟨j, tl, hj, hdr, hctx, htr, hend⟩ :=
    Collect_spec TRACY_ON_DEMAND IsConnected dev s hgate hwf
  intro c hc
  rw [htr] at hc
  simp only [gpuTimeContexts, List.filterMap_append, List.mem_append] at hc
  rcases hc with hc | hc
  · rw [filterMap_flatMap, List.mem_flatMap] at hc
    obtain ⟨i, _, hi⟩ := hc
    exact gpuTimeContexts_collectBody dev (s.tailAt i) c hi
  · rcases hend with ⟨_, htl, _⟩ | ⟨_, o, hbody, _⟩
    · rw [htl] at hc; simp at hc
    · have htl : (collectBody dev (s.tailAt j)).1 = tl := by rw [hbody]
      rw [← htl] at hc
      exact gpuTimeContexts_collectBody dev (s.tailAt j) c hc

theorem runOps_fifo (TRACY_ON_DEMAND : Bool) : ∀ (ops : List Op) (s : OpenCLCtx),
    s.wellFormed → (∀ op ∈ ops, op.gateOpen TRACY_ON_DEMAND = true) →
    gpuTimeIds (runOps TRACY_ON_DEMAND s ops).trace
        <+: s.pendingIds ++ (runOps TRACY_ON_DEMAND s ops).ids ∧
    ∀ c ∈ gpuTimeContexts (runOps TRACY_ON_DEMAND s ops).trace, c = s.m_contextId := by
  intro ops
  induction ops with
  | nil =>
    intro s _ _
    simp [runOps, gpuTimeIds, gpuTimeContexts]
  | cons op ops ih =>
    intro s hwf hgate
    have hrest : ∀ op ∈ ops, op.gateOpen TRACY_ON_DEMAND = true :=
      fun o ho => hgate o (List.mem_cons_of_mem op ho)
    cases op with
    | NextQueryId info =>
      by_cases hfull : (s.m_head + 1) % QueryCount = s.m_tail
      · simp [runOps, NextQueryId_error s info hfull, gpuTimeIds, gpuTimeContexts]
      · have hih := ih _ (wellFormed_alloc s (fun i => if i = s.m_head then info else s.m_query i)
          hwf) hrest
        rw [pendingIds_alloc s _ hwf hfull] at hih
        simp only [runOps, NextQueryId_ok s info hfull]
        refine ⟨?_, hih.2⟩
        simpa using hih.1
    | Collect IsConnected dev =>
      have hg : TRACY_ON_DEMAND = false ∨ IsConnected = true := by
        have := hgate (.Collect IsConnected dev) (List.mem_cons_self _ _)
        simpa [Op.gateOpen] using this
      obtain ⟨j, hj, hctx, hids⟩ := Collect_gpuTimeIds TRACY_ON_DEMAND IsConnected dev s hg hwf
      have hcs := gpuTimeContexts_Collect TRACY_ON_DEMAND IsConnected dev s hg hwf
      by_cases hout : (s.Collect TRACY_ON_DEMAND IsConnected dev).outcome = .returned
      · have hih := ih (s.Collect TRACY_ON_DEMAND IsConnected dev).ctx
          (by rw [hctx]; exact wellFormed_tailAt s hwf j) hrest
        simp only [runOps, hout, if_true]
        rw [hctx] at hih
        have hids1 : gpuTimeIds (s.Collect TRACY_ON_DEMAND IsConnected dev).trace
            = (List.range j).map s.slotAt := by
          rcases hids with h | ⟨h, _⟩
          · exact h
          · rw [hout] at h; cases h
        constructor
        · rw [pendingIds_tailAt s hwf j hj, hctx]
          simp only [gpuTimeIds, List.filterMap_append] at hids1 hih ⊢
          rw [hids1, List.append_assoc]
          exact (List.prefix_append_right_inj _).mpr hih.1
        · intro c hc
          simp only [gpuTimeContexts, List.filterMap_append, List.mem_append] at hc
          rcases hc with hc | hc
          · exact hcs c hc
          · rw [hctx] at hc
            exact hih.2 c hc
      · simp only [runOps, hout, if_false, List.append_nil]
        refine ⟨?_, hcs⟩
        rcases hids with h | ⟨_, hjp, h⟩
        · rw [h, pendingIds_tailAt s hwf j hj]
          exact List.prefix_append _ _
        · rw [h, pendingIds_tailAt s hwf (j + 1) (by omega)]
          exact List.prefix_append _ _

theorem ctor_fresh (counter : Nat) (hostTime : Int) (p : Probe) (memory : Nat → EventInfo)
    (s : OpenCLCtx) (h : ctor counter hostTime p memory = some s) :
    s.m_head = 0 ∧ s.m_tail = 0 ∧ s.m_contextId = counter ∧ s.m_query = memory ∧
      counter ≠ 255 := by
  unfold ctor at h
  split_ifs at h with hc
  cases hd : GetDeviceTimestamp p with
  | none => rw [hd] at h; cases h
  | some d =>
    rw [hd] at h
    cases h
    exact ⟨rfl, rfl, rfl, rfl, hc⟩

/-- C3 (amended). Start from a freshly constructed context and make any
sequence of `NextQueryId` and `Collect` calls in which every `Collect` drains
(the build has no `TRACY_ON_DEMAND`, or a consumer is connected at that call);
the sequence ends at the first call that does not return. Then the query ids
of the `GpuTime` records written, in the order written, are an initial segment
of the ids `NextQueryId` returned, in the order returned, and every such record
carries the id of the context. -/
theorem fifo_reporting (TRACY_ON_DEMAND : Bool) (counter : Nat) (hostTime : Int) (p : Probe)
    (memory : Nat → EventInfo) (s : OpenCLCtx) (ops : List Op)
    (hfresh : ctor counter hostTime p memory = some s)
    (hgate : ∀ op ∈ ops, op.gateOpen TRACY_ON_DEMAND = true) :
    gpuTimeIds (runOps TRACY_ON_DEMAND s ops).trace <+: (runOps TRACY_ON_DEMAND s ops).ids ∧
    ∀ c ∈ gpuTimeContexts (runOps TRACY_ON_DEMAND s ops).trace, c = s.m_contextId := by
  obtain ⟨hh, ht, _, _, _⟩ := ctor_fresh counter hostTime p memory s hfresh
  have hwf : s.wellFormed := by
    unfold wellFormed
    rw [hh, ht]
    decide
  have hp : s.pendingIds = [] := by
    simp [pendingIds, pending, hh, ht]
  have h := runOps_fifo TRACY_ON_DEMAND ops s hwf hgate
  rw [hp, List.nil_append] at h
  exact h

/-- C3 (witness). The calls of `sampleOps` on a fresh context,
in the on-demand build. -/
theorem fifo_reporting_witness :
    gpuTimeIds (runOps true freshCtx sampleOps).trace <+: (runOps true freshCtx sampleOps).ids ∧
    ∀ c ∈ gpuTimeContexts (runOps true freshCtx sampleOps).trace, c = freshCtx.m_contextId :=
  fifo_reporting true 3 5000 sampleProbe (fun _ => ⟨nullptr, .Begin⟩) freshCtx sampleOps rfl
    (by decide)

/-- C3 (counterexample). In the on-demand build, on a fresh context and with
no ring overflow, the calls of `gatedOps` return the ids 0, 1, 0 and write
`GpuTime` records with the ids 0, 0: the `Collect` made while no consumer was
connected reset both cursors, so the records are not an initial segment of the
allocations. -/
theorem fifo_broken_by_gate :
    ctor 3 5000 sampleProbe (fun _ => ⟨nullptr, .Begin⟩) = some freshCtx ∧
    (runOps true freshCtx gatedOps).outcome = .returned ∧
    (runOps true freshCtx gatedOps).ids = [0, 1, 0] ∧
    gpuTimeIds (runOps true freshCtx gatedOps).trace = [0, 0] ∧
    ¬ gpuTimeIds (runOps true freshCtx gatedOps).trace <+: (runOps true freshCtx gatedOps).ids :=
  ⟨rfl, by decide, by decide, by decide, by decide⟩

/-! ## C4: a zone with no bound event -/

theorem collectLoop_stop (dev : Device) (fuel : Nat) (s : OpenCLCtx) (h : s.m_tail = s.m_head) :
    collectLoop dev fuel s = ⟨s, [], .returned⟩ := by
  cases fuel <;> simp [collectLoop, h]

theorem collectLoop_exit (dev : Device) (fuel : Nat) (s : OpenCLCtx) (effects : List Effect)
    (o : Outcome) (h : s.m_tail ≠ s.m_head) (hb : collectBody dev s = (effects, some o)) :
    collectLoop dev (fuel + 1) s = ⟨s, effects, o⟩ := by
  simp only [collectLoop, h, if_false, hb]

theorem collectLoop_next (dev : Device) (fuel : Nat) (s : OpenCLCtx) (effects : List Effect)
    (h : s.m_tail ≠ s.m_head) (hb : collectBody dev s = (effects, none)) :
    collectLoop dev (fuel + 1) s =
      ⟨(collectLoop dev fuel { s with m_tail := (s.m_tail + 1) % QueryCount }).ctx,
       effects ++ (collectLoop dev fuel { s with m_tail := (s.m_tail + 1) % QueryCount }).trace,
       (collectLoop dev fuel { s with m_tail := (s.m_tail + 1) % QueryCount }).outcome⟩ := by
  simp only [collectLoop, h, if_false, hb]

/-- C4 (amended). `Collect` does not special-case a slot with no bound
event: it hands the null handle to the device like any other. Open an active
zone on a well-formed empty ring and close it with no `SetEvent` in between:
both calls return, the Begin slot and the End slot hold the null handle, the
tail is at the Begin slot. For a following draining `Collect`: when
`clGetEventInfo` reports an error for the null handle the call fails its
first assertion, with nothing written and the tail in place; when the device
reports the null handle complete, with nonzero start and end timestamps, and
accepts `clReleaseEvent` on it, the call returns, writes a `GpuTime` record
for the Begin slot and one for the End slot, calls `clReleaseEvent` on the
null handle and moves the tail past both slots. -/
theorem zone_without_SetEvent (TRACY_ON_DEMAND IsConnected : Bool) (dev : Device)
    (s : OpenCLCtx) (srcLoc : Nat) (cpuTime : Int) (thread uninit : Nat) (cpuTime2 : Int)
    (thread2 : Nat)
    (hgate : TRACY_ON_DEMAND = false ∨ IsConnected = true) (hwf : s.wellFormed)
    (hempty : s.m_tail = s.m_head) :
    let b := OpenCLCtxScope.ctor TRACY_ON_DEMAND IsConnected s srcLoc true cpuTime thread uninit
    let e := OpenCLCtxScope.dtor b.scope b.ctx cpuTime2 thread2
    let c := e.ctx.Collect TRACY_ON_DEMAND IsConnected dev
    b.outcome = .returned ∧ e.outcome = .returned ∧
    e.ctx.m_query s.m_head = ⟨nullptr, .Begin⟩ ∧
    e.ctx.m_query ((s.m_head + 1) % QueryCount) = ⟨nullptr, .End⟩ ∧
    e.ctx.m_tail = s.m_head ∧ e.ctx.m_head = (s.m_head + 2) % QueryCount ∧
    ((dev.clGetEventInfo nullptr).1 ≠ CL_SUCCESS →
      c.outcome = .assertFailed ∧ c.trace = [.getEventInfo nullptr] ∧
      c.ctx.m_tail = s.m_head) ∧
    (dev.clGetEventInfo nullptr = (CL_SUCCESS, CL_COMPLETE) →
      (dev.clGetEventProfilingInfo nullptr CL_PROFILING_COMMAND_START).1 = CL_SUCCESS →
      toUInt64 (dev.clGetEventProfilingInfo nullptr CL_PROFILING_COMMAND_START).2 ≠ 0 →
      (dev.clGetEventProfilingInfo nullptr CL_PROFILING_COMMAND_END).1 = CL_SUCCESS →
      toUInt64 (dev.clGetEventProfilingInfo nullptr CL_PROFILING_COMMAND_END).2 ≠ 0 →
      dev.clReleaseEvent nullptr = CL_SUCCESS →
      c.outcome = .returned ∧ c.ctx.m_tail = (s.m_head + 2) % QueryCount ∧
      c.ctx.m_head = (s.m_head + 2) % QueryCount ∧
      queued c.trace =
        [.GpuTime (s.TimestampOffset (toInt64 (toUInt64
            (dev.clGetEventProfilingInfo nullptr CL_PROFILING_COMMAND_START).2)))
            s.m_head s.m_contextId,
         .GpuTime (s.TimestampOffset (toInt64 (toUInt64
            (dev.clGetEventProfilingInfo nullptr CL_PROFILING_COMMAND_END).2)))
            ((s.m_head + 1) % QueryCount) s.m_contextId] ∧
      released c.trace = [nullptr]) := by
  obtain ⟨hh, ht⟩ := hwf
  have hq : QueryCount = 65536 := rfl
  have h1 : (s.m_head + 1) % QueryCount ≠ s.m_tail := by rw [hempty, hq]; omega
  have h2 : ((s.m_head + 1) % QueryCount + 1) % QueryCount ≠ s.m_tail := by
    rw [hempty, hq]; omega
  have h3 : ((s.m_head + 1) % QueryCount + 1) % QueryCount = (s.m_head + 2) % QueryCount := by
    rw [hq]; omega
  have h4 : s.m_head ≠ (s.m_head + 1) % QueryCount := by rw [hq]; omega
  have h5 : s.m_head ≠ (s.m_head + 2) % QueryCount := by rw [hq] at *; omega
  have h6 : (s.m_head + 1) % QueryCount ≠ (s.m_head + 2) % QueryCount := by rw [hq] at *; omega
  have h7 : toUInt16 s.m_head = s.m_head := by
    simp only [toUInt16]; rw [hq] at hh; omega
  have h8 : toUInt16 ((s.m_head + 1) % QueryCount) = (s.m_head + 1) % QueryCount := by
    simp only [toUInt16, hq]; omega
  have hact : (if TRACY_ON_DEMAND = true then true && IsConnected else true) = true := by
    rcases hgate with h | h <;> simp [h]
  have hfuel : QueryCount = 65534 + 1 + 1 := rfl
  intro b e c
  have hb : b = ⟨⟨true, nullptr, s.m_head⟩,
      { s with m_head := (s.m_head + 1) % QueryCount,
               m_query := fun i => if i = s.m_head then ⟨nullptr, .Begin⟩ else s.m_query i },
      [.queue (.GpuZoneBeginSerial cpuTime srcLoc thread (toUInt16 s.m_head) s.GetId)],
      .returned⟩ := by
    simp only [b, OpenCLCtxScope.ctor, hact, NextQueryId_ok s _ h1]
    simp [GetId]
  have he : e = ⟨⟨true, nullptr, s.m_head⟩,
      { s with m_head := (s.m_head + 2) % QueryCount,
               m_query := fun i => if i = (s.m_head + 1) % QueryCount then ⟨nullptr, .End⟩
                 else if i = s.m_head then ⟨nullptr, .Begin⟩ else s.m_query i },
      [.queue (.GpuZoneEndSerial cpuTime2 thread2 (toUInt16 ((s.m_head + 1) % QueryCount))
        s.GetId)],
      .returned⟩ := by
    simp only [e, hb, OpenCLCtxScope.dtor]
    rw [NextQueryId_ok _ _ h2]
    simp [GetId, h3]
  have hc : c = collectLoop dev (65534 + 1 + 1)
      { s with m_head := (s.m_head + 2) % QueryCount,
               m_query := fun i => if i = (s.m_head + 1) % QueryCount then ⟨nullptr, .End⟩
                 else if i = s.m_head then ⟨nullptr, .Begin⟩ else s.m_query i } := by
    have : c = collectLoop dev QueryCount e.ctx := Collect_gate_open _ _ _ _ hgate
    rw [this, he]
    rfl
  refine ⟨by rw [hb], by rw [he], by simp [he, h4], by simp [he], by simp [he, hempty],
    by simp [he], ?_, ?_⟩
  · intro hfail
    rw [hc, collectLoop_exit dev _ _ [.getEventInfo nullptr] .assertFailed
      (by simp [hempty, h5]) (by simp [collectBody, hempty, h4, hfail])]
    simp [hempty]
  · intro hst hp1 hp2 hp3 hp4 hrel
    have hst1 : (dev.clGetEventInfo nullptr).1 = CL_SUCCESS := by rw [hst]
    have hst2 : (dev.clGetEventInfo nullptr).2 = CL_COMPLETE := by rw [hst]
    rw [hc, collectLoop_next dev _ _ _ (by simp [hempty, h5])
      (by simp [collectBody, hempty, h4, hst1, hst2, hp1, hp2]; rfl)]
    rw [collectLoop_next dev _ _ _ (by simp [hempty, h6])
      (by simp [collectBody, hempty, h4, hst1, hst2, hp3, hp4, hrel]; rfl)]
    rw [collectLoop_stop dev _ _ (by simp [hempty, h3])]
    simp [queued, released, h7, h8, TimestampOffset, hempty, h3]

/-- C4 (witness). The zone is opened and closed on
`freshCtx` and drained on a device that answers for the null handle. -/
theorem zone_without_SetEvent_witness :
    freshCtx.wellFormed ∧ freshCtx.m_tail = freshCtx.m_head ∧
    (let b := OpenCLCtxScope.ctor false true freshCtx 11 true 5100 1 0
     let e := OpenCLCtxScope.dtor b.scope b.ctx 5200 1
     let c := e.ctx.Collect false true lenientDevice
     c.outcome = .returned ∧ c.ctx.m_tail = (freshCtx.m_head + 2) % QueryCount ∧
       released c.trace = [nullptr]) :=
  ⟨by decide, rfl,
    let h := (zone_without_SetEvent false true lenientDevice freshCtx 11 5100 1 0 5200 1
      (Or.inl rfl) (by decide) rfl).2.2.2.2.2.2.2 rfl rfl (by decide) rfl (by decide) rfl
    ⟨h.1, h.2.1, h.2.2.2.2⟩⟩

/-- C4 (counterexample). On a device that rejects the null handle with
`CL_INVALID_EVENT`, as the OpenCL runtime does, a zone opened and closed on a
fresh context without `SetEvent` makes the following `Collect` fail its first
assertion: no `GpuTime` record is written and the tail stays at slot 0. -/
theorem zone_without_SetEvent_fails :
    (OpenCLCtxScope.ctor false true freshCtx 11 true 5100 1 0).outcome = .returned ∧
    (OpenCLCtxScope.dtor (OpenCLCtxScope.ctor false true freshCtx 11 true 5100 1 0).scope
      (OpenCLCtxScope.ctor false true freshCtx 11 true 5100 1 0).ctx 5200 1).outcome
        = .returned ∧
    (sampleDevice.clGetEventInfo nullptr).1 = CL_INVALID_EVENT ∧
    ((OpenCLCtxScope.dtor (OpenCLCtxScope.ctor false true freshCtx 11 true 5100 1 0).scope
      (OpenCLCtxScope.ctor false true freshCtx 11 true 5100 1 0).ctx 5200 1).ctx.Collect
        false true sampleDevice).outcome = .assertFailed ∧
    queued ((OpenCLCtxScope.dtor (OpenCLCtxScope.ctor false true freshCtx 11 true 5100 1 0).scope
      (OpenCLCtxScope.ctor false true freshCtx 11 true 5100 1 0).ctx 5200 1).ctx.Collect
        false true sampleDevice).trace = [] ∧
    ((OpenCLCtxScope.dtor (OpenCLCtxScope.ctor false true freshCtx 11 true 5100 1 0).scope
      (OpenCLCtxScope.ctor false true freshCtx 11 true 5100 1 0).ctx 5200 1).ctx.Collect
        false true sampleDevice).ctx.m_tail = 0 := by
  decide

/-! ## C5: the release calls of `Collect`, with and without `NDEBUG` -/

theorem flatMap_endEvents (f : Nat → EventInfo) (l : List Nat) :
    (l.flatMap fun i => if (f i).phase = EventPhase.End then [(f i).event] else [])
      = ((l.map f).filter fun info => info.phase = EventPhase.End).map EventInfo.event := by
  induction l with
  | nil => rfl
  | cons a l ih =>
    rw [List.flatMap_cons, ih, List.map_cons]
    by_cases h : (f a).phase = EventPhase.End <;> simp [h, List.filter_cons]

theorem released_drained (dev : Device) (s : OpenCLCtx) (j : Nat)
    (h : ∀ i, i < j → (collectBody dev (s.tailAt i)).2 = none) :
    released ((List.range j).flatMap fun i => (collectBody dev (s.tailAt i)).1)
      = s.endEvents j := by
  unfold released endEvents
  rw [filterMap_flatMap, ← flatMap_endEvents]
  apply List.flatMap_congr
  intro i hi
  have h1 := released_collectBody_none dev (s.tailAt i) (h i (List.mem_range.mp hi))
  simp only [released] at h1
  rw [h1]
  rfl

/-- The release calls of `Collect` in the build without `NDEBUG`, on a
well-formed ring: the handles passed to `clReleaseEvent` are, in order, the
handles of the End-phase slots the call drains, one call per such slot; a
call that aborts because `clReleaseEvent` itself failed has made that one
further call, for the End-phase slot at the tail; a call gated off by
`TRACY_ON_DEMAND` with no consumer connected releases nothing. -/
theorem Collect_releases (TRACY_ON_DEMAND IsConnected : Bool) (dev : Device) (s : OpenCLCtx)
    (hwf : s.wellFormed) :
    ((TRACY_ON_DEMAND = true ∧ IsConnected = false) →
      released (s.Collect TRACY_ON_DEMAND IsConnected dev).trace = []) ∧
    ((TRACY_ON_DEMAND = false ∨ IsConnected = true) →
      ∃ j, j ≤ s.pending ∧ (s.Collect TRACY_ON_DEMAND IsConnected dev).ctx = s.tailAt j ∧
        (released (s.Collect TRACY_ON_DEMAND IsConnected dev).trace = s.endEvents j ∨
          ((s.Collect TRACY_ON_DEMAND IsConnected dev).outcome = .assertFailed ∧
            j < s.pending ∧ (s.m_query (s.slotAt j)).phase = EventPhase.End ∧
            dev.clReleaseEvent (s.m_query (s.slotAt j)).event ≠ CL_SUCCESS ∧
            released (s.Collect TRACY_ON_DEMAND IsConnected dev).trace
              = s.endEvents j ++ [(s.m_query (s.slotAt j)).event]))) := by
  constructor
  · rintro ⟨h1, h2⟩
    subst h1 h2
    by_cases hth : s.m_tail = s.m_head
    · rw [Collect_empty true false dev s hth]; rfl
    · rw [Collect_gate_closed dev s hth]; rfl
  · intro hgate
    obtain ⟨j, tl, hj, hdr, hctx, htr, hend⟩ :=
      Collect_spec TRACY_ON_DEMAND IsConnected dev s hgate hwf
    have hd := released_drained dev s j hdr
    simp only [released] at hd
    refine ⟨j, hj, hctx, ?_⟩
    rcases hend with ⟨_, htl, _⟩ | ⟨hjp, o, hbody, hout⟩
    · left
      rw [htr, htl, List.append_nil]
      exact hd
    · have hsome : (collectBody dev (s.tailAt j)).2 = some o := by rw [hbody]
      have htl : (collectBody dev (s.tailAt j)).1 = tl := by rw [hbody]
      rcases collectBody_some dev (s.tailAt j) o hsome with ⟨_, h1⟩ | ⟨ho, _, hph, hrel, _, h1⟩
      · left
        rw [htl] at h1
        simp only [released] at h1
        rw [htr]
        simp only [released, List.filterMap_append]
        rw [hd, h1, List.append_nil]
      · right
        rw [htl] at h1
        simp only [released] at h1
        refine ⟨by rw [hout, ho], hjp, hph, hrel, ?_⟩
        rw [htr]
        simp only [released, List.filterMap_append]
        rw [hd, h1]
        rfl

theorem collectLoopNDEBUG_stop (dev : Device) (fuel : Nat) (s : OpenCLCtx)
    (h : s.m_tail = s.m_head) : collectLoopNDEBUG dev fuel s = ⟨s, [], .returned⟩ := by
  cases fuel <;> simp [collectLoopNDEBUG, h]

theorem collectLoopNDEBUG_exit (dev : Device) (fuel : Nat) (s : OpenCLCtx)
    (effects : List Effect) (o : Outcome) (h : s.m_tail ≠ s.m_head)
    (hb : collectBodyNDEBUG dev s = (effects, some o)) :
    collectLoopNDEBUG dev (fuel + 1) s = ⟨s, effects, o⟩ := by
  simp only [collectLoopNDEBUG, h, if_false, hb]

theorem collectLoopNDEBUG_next (dev : Device) (fuel : Nat) (s : OpenCLCtx)
    (effects : List Effect) (h : s.m_tail ≠ s.m_head)
    (hb : collectBodyNDEBUG dev s = (effects, none)) :
    collectLoopNDEBUG dev (fuel + 1) s =
      ⟨(collectLoopNDEBUG dev fuel { s with m_tail := (s.m_tail + 1) % QueryCount }).ctx,
       effects ++
        (collectLoopNDEBUG dev fuel { s with m_tail := (s.m_tail + 1) % QueryCount }).trace,
       (collectLoopNDEBUG dev fuel { s with m_tail := (s.m_tail + 1) % QueryCount }).outcome⟩ := by
  simp only [collectLoopNDEBUG, h, if_false, hb]

theorem released_collectBodyNDEBUG (dev : Device) (s : OpenCLCtx) :
    released (collectBodyNDEBUG dev s).1 = [] := by
  simp only [collectBodyNDEBUG]
  split_ifs <;> simp [released]

theorem released_collectLoopNDEBUG (dev : Device) : ∀ (fuel : Nat) (s : OpenCLCtx),
    released (collectLoopNDEBUG dev fuel s).trace = [] := by
  intro fuel
  induction fuel with
  | zero =>
    intro s
    by_cases h : s.m_tail = s.m_head <;> simp [collectLoopNDEBUG, h, released]
  | succ fuel ih =>
    intro s
    by_cases h : s.m_tail = s.m_head
    · rw [collectLoopNDEBUG_stop dev _ s h]; rfl
    · have hr := released_collectBodyNDEBUG dev s
      rcases hb : collectBodyNDEBUG dev s with ⟨effects, _ | o⟩
      · rw [collectLoopNDEBUG_next dev fuel s effects h hb]
        rw [hb] at hr
        have := ih { s with m_tail := (s.m_tail + 1) % QueryCount }
        simp only [released, List.filterMap_append] at hr this ⊢
        rw [hr, this]
        rfl
      · rw [collectLoopNDEBUG_exit dev fuel s effects o h hb]
        rw [hb] at hr
        exact hr

theorem released_CollectNDEBUG (TRACY_ON_DEMAND IsConnected : Bool) (dev : Device)
    (s : OpenCLCtx) : released (s.CollectNDEBUG TRACY_ON_DEMAND IsConnected dev).trace = [] := by
  unfold CollectNDEBUG
  split_ifs
  · rfl
  · exact released_collectLoopNDEBUG dev _ _
  · exact released_collectLoopNDEBUG dev _ _

theorem released_collectBody_status (dev : Device) (s : OpenCLCtx) :
    ∀ e ∈ released (collectBody dev s).1,
      e = (s.m_query s.m_tail).event ∧ (dev.clGetEventInfo e).1 = CL_SUCCESS := by
  rcases hph : (s.m_query s.m_tail).phase <;>
  by_cases h1 : (dev.clGetEventInfo (s.m_query s.m_tail).event).1 = CL_SUCCESS <;>
  by_cases h2 : (dev.clGetEventInfo (s.m_query s.m_tail).event).2 = CL_COMPLETE <;>
  by_cases h3 : (dev.clGetEventProfilingInfo (s.m_query s.m_tail).event
      (profilingParam (s.m_query s.m_tail).phase)).1 = CL_SUCCESS <;>
  by_cases h4 : toUInt64 (dev.clGetEventProfilingInfo (s.m_query s.m_tail).event
      (profilingParam (s.m_query s.m_tail).phase)).2 = 0 <;>
  by_cases h5 : dev.clReleaseEvent (s.m_query s.m_tail).event = CL_SUCCESS <;>
  simp only [profilingParam, hph, if_true, if_false, reduceCtorEq] at h3 h4 <;>
  simp [collectBody, profilingParam, released, *]

theorem released_collectLoop_status (dev : Device) : ∀ (fuel : Nat) (s : OpenCLCtx),
    ∀ e ∈ released (collectLoop dev fuel s).trace, (dev.clGetEventInfo e).1 = CL_SUCCESS := by
  intro fuel
  induction fuel with
  | zero =>
    intro s e he
    by_cases h : s.m_tail = s.m_head <;> simp [collectLoop, h, released] at he
  | succ fuel ih =>
    intro s e he
    by_cases h : s.m_tail = s.m_head
    · rw [collectLoop_stop dev _ s h] at he
      simp [released] at he
    · have hr := released_collectBody_status dev s
      rcases hb : collectBody dev s with ⟨effects, _ | o⟩
      · rw [collectLoop_next dev fuel s effects h hb] at he
        rw [hb] at hr
        simp only [released, List.filterMap_append, List.mem_append] at he hr
        rcases he with he | he
        · exact (hr e he).2
        · exact ih _ e he
      · rw [collectLoop_exit dev fuel s effects o h hb] at he
        rw [hb] at hr
        exact (hr e he).2

/-- In the build with assertions, on a device that rejects the null handle,
`Collect` never passes the null handle to `clReleaseEvent`. -/
theorem Collect_never_releases_null (TRACY_ON_DEMAND IsConnected : Bool) (dev : Device)
    (s : OpenCLCtx) (hnull : (dev.clGetEventInfo nullptr).1 ≠ CL_SUCCESS) :
    nullptr ∉ released (s.Collect TRACY_ON_DEMAND IsConnected dev).trace := by
  intro hmem
  apply hnull
  unfold Collect at hmem
  split_ifs at hmem
  · simp [released] at hmem
  · exact released_collectLoop_status dev _ _ nullptr hmem
  · exact released_collectLoop_status dev _ _ nullptr hmem

/-- C5 (the code at the failing input). The source releases the event of a
drained End-phase slot by `assert(clReleaseEvent(event) == CL_SUCCESS)`. In
the build with `NDEBUG` the call goes with the assertion: no `Collect` call
releases anything. On `twoZones` with `sampleDevice` the call drains slots 0
and 1, slot 1 being an End-phase slot bound to event 7, writes their two
records and releases nothing, where the build with assertions drains the same
two slots and releases event 7 once. -/
theorem release_lost_under_NDEBUG :
    (∀ (TRACY_ON_DEMAND IsConnected : Bool) (dev : Device) (s : OpenCLCtx),
      released (s.CollectNDEBUG TRACY_ON_DEMAND IsConnected dev).trace = []) ∧
    twoZones.m_query 1 = ⟨7, .End⟩ ∧
    (twoZones.CollectNDEBUG false true sampleDevice).outcome = .returned ∧
    (twoZones.CollectNDEBUG false true sampleDevice).ctx.m_tail = 2 ∧
    gpuTimeIds (twoZones.CollectNDEBUG false true sampleDevice).trace = [0, 1] ∧
    released (twoZones.CollectNDEBUG false true sampleDevice).trace = [] ∧
    (twoZones.Collect false true sampleDevice).ctx.m_tail = 2 ∧
    released (twoZones.Collect false true sampleDevice).trace = [7] :=
  ⟨released_CollectNDEBUG, by decide, by decide, by decide, by decide, by decide, by decide,
    by decide⟩

/-! ## C6 to C9: `NextQueryId` -/

/-- C6. On a ring that is not full, `NextQueryId(eventInfo)` returns the
current head, stores `eventInfo` in the slot at the head, sets the head to
`(head + 1) % 65536` and leaves the tail, every other slot and the other
members unchanged; the constructor of an active scope makes this allocation
with phase Begin and the null event. -/
theorem NextQueryId_postcondition (s : OpenCLCtx) (eventInfo : EventInfo)
    (hroom : (s.m_head + 1) % QueryCount ≠ s.m_tail) :
    QueryCount = 65536 ∧
    (∃ s1, s.NextQueryId eventInfo = .ok (s.m_head, s1) ∧
      s1.m_query s.m_head = eventInfo ∧
      s1.m_head = (s.m_head + 1) % QueryCount ∧
      s1.m_tail = s.m_tail ∧
      (∀ i, i ≠ s.m_head → s1.m_query i = s.m_query i) ∧
      s1.m_contextId = s.m_contextId ∧ s1.m_hostStartTime = s.m_hostStartTime ∧
      s1.m_deviceStartTime = s.m_deviceStartTime) ∧
    (∀ (srcLoc : Nat) (cpuTime : Int) (thread uninit : Nat),
      (OpenCLCtxScope.ctor false true s srcLoc true cpuTime thread uninit).ctx.m_query s.m_head
        = ⟨nullptr, .Begin⟩) := by
  refine ⟨rfl, ⟨_, NextQueryId_ok s eventInfo hroom, by simp, rfl, rfl, ?_, rfl, rfl, rfl⟩, ?_⟩
  · intro i hi
    simp [hi]
  · intro srcLoc cpuTime thread uninit
    simp [OpenCLCtxScope.ctor, NextQueryId_ok s _ hroom]

/-- C6 (witness). An allocation on the fresh
context. -/
theorem NextQueryId_postcondition_witness :
    (freshCtx.m_head + 1) % QueryCount ≠ freshCtx.m_tail ∧
    ∃ s1, freshCtx.NextQueryId ⟨7, .End⟩ = .ok (freshCtx.m_head, s1) ∧
      s1.m_query freshCtx.m_head = ⟨7, .End⟩ ∧
      s1.m_head = (freshCtx.m_head + 1) % QueryCount ∧
      s1.m_tail = freshCtx.m_tail ∧
      (∀ i, i ≠ freshCtx.m_head → s1.m_query i = freshCtx.m_query i) ∧
      s1.m_contextId = freshCtx.m_contextId ∧
      s1.m_hostStartTime = freshCtx.m_hostStartTime ∧
      s1.m_deviceStartTime = freshCtx.m_deviceStartTime :=
  ⟨by decide, (NextQueryId_postcondition freshCtx ⟨7, .End⟩ (by decide)).2.1⟩

theorem allocs_ids_getD (od : Bool) : ∀ (infos : List EventInfo) (s : OpenCLCtx) (i : Nat),
    i < (runOps od s (infos.map Op.NextQueryId)).ids.length →
    (runOps od s (infos.map Op.NextQueryId)).ids.getD i 0
      = if i = 0 then s.m_head else (s.m_head + i) % QueryCount := by
  intro infos
  induction infos with
  | nil => intro s i hi; simp [runOps] at hi
  | cons info infos ih =>
    intro s i hi
    by_cases hfull : (s.m_head + 1) % QueryCount = s.m_tail
    · simp [runOps, NextQueryId_error s info hfull] at hi
    · simp only [List.map_cons, runOps, NextQueryId_ok s info hfull] at hi ⊢
      cases i with
      | zero => simp
      | succ i =>
        simp only [List.length_cons, Nat.add_lt_add_iff_right] at hi
        rw [List.getD_cons_succ, ih _ i hi]
        clear hi ih
        simp only [QueryCount, Nat.reduceMul] at hfull ⊢
        rw [if_neg (Nat.succ_ne_zero i)]
        by_cases hi0 : i = 0
        · subst hi0; rfl
        · rw [if_neg hi0]; omega

theorem allocs_ids_length_le (od : Bool) : ∀ (infos : List EventInfo) (s : OpenCLCtx),
    (runOps od s (infos.map Op.NextQueryId)).ids.length ≤ infos.length := by
  intro infos
  induction infos with
  | nil => intro s; simp [runOps]
  | cons info infos ih =>
    intro s
    by_cases hfull : (s.m_head + 1) % QueryCount = s.m_tail
    · simp [runOps, NextQueryId_error s info hfull]
    · simp only [List.map_cons, runOps, NextQueryId_ok s info hfull, List.length_cons]
      exact Nat.succ_le_succ (ih _)

/-- What a run of allocations does on a well-formed ring. -/
theorem allocs_run (od : Bool) : ∀ (infos : List EventInfo) (s : OpenCLCtx), s.wellFormed →
    (runOps od s (infos.map Op.NextQueryId)).ids.length
      = min infos.length (QueryCount - 1 - s.pending) ∧
    ((runOps od s (infos.map Op.NextQueryId)).outcome
      = if QueryCount - 1 - s.pending < infos.length then .assertFailed else .returned) ∧
    (∀ i, i < min infos.length (QueryCount - 1 - s.pending) →
      (runOps od s (infos.map Op.NextQueryId)).ctx.m_query ((s.m_head + i) % QueryCount)
        = infos.getD i ⟨nullptr, .Begin⟩) ∧
    (∀ x, (∀ i, i < min infos.length (QueryCount - 1 - s.pending) →
        x ≠ (s.m_head + i) % QueryCount) →
      (runOps od s (infos.map Op.NextQueryId)).ctx.m_query x = s.m_query x) ∧
    (runOps od s (infos.map Op.NextQueryId)).ctx.m_tail = s.m_tail := by
  intro infos
  induction infos with
  | nil =>
    intro s _
    simp [runOps]
  | cons info infos ih =>
    intro s hwf
    have hpl := pending_lt s
    by_cases hfull : (s.m_head + 1) % QueryCount = s.m_tail
    · have hp : QueryCount - 1 - s.pending = 0 := by
        obtain ⟨hh, ht⟩ := hwf
        simp only [pending, QueryCount] at *
        omega
      simp [runOps, NextQueryId_error s info hfull, hp]
    · have hp : ∀ q : Nat → EventInfo,
          pending { s with m_head := (s.m_head + 1) % QueryCount, m_query := q }
            = s.pending + 1 := by
        intro q
        obtain ⟨hh, ht⟩ := hwf
        simp only [pending, QueryCount] at *
        omega
      have hroom : s.pending + 1 ≤ QueryCount - 1 := by
        obtain ⟨hh, ht⟩ := hwf
        simp only [pending, QueryCount] at *
        omega
      have hhead : s.m_head < QueryCount := hwf.1
      obtain ⟨h1, h2, h3, h4, h5⟩ := ih _ (wellFormed_alloc s
        (fun i => if i = s.m_head then info else s.m_query i) hwf)
      rw [hp] at h1 h2 h3 h4
      simp only [List.map_cons, runOps, NextQueryId_ok s info hfull, List.length_cons]
      refine ⟨by rw [h1]; omega, ?_, ?_, ?_, h5⟩
      · rw [h2]
        by_cases hc : QueryCount - 1 - (s.pending + 1) < infos.length
        · rw [if_pos hc, if_pos (by omega)]
        · rw [if_neg hc, if_neg (by omega)]
      · intro i hi
        cases i with
        | zero =>
          rw [h4]
          · simp [Nat.mod_eq_of_lt hhead]
          · intro k hk
            simp only [QueryCount] at *
            omega
        | succ i =>
          rw [List.getD_cons_succ, ← h3 i (by omega)]
          congr 1
          simp only [QueryCount]
          omega
      · intro x hx
        rw [h4]
        · have := hx 0 (by omega)
          simp only [Nat.add_zero, Nat.mod_eq_of_lt hhead] at this
          simp [this]
        · intro k hk
          have := hx (k + 1) (by omega)
          simp only [QueryCount] at *
          omega

/-- C7. Make at most 65536 allocations in a row on one context, from any
state; the run ends at the first allocation that fails. Each returned id is
the one before it plus 1 modulo 65536, and the returned ids are pairwise
distinct modulo 65536. On a well-formed ring with room for all of them, every
allocation returns. -/
theorem allocation_order (TRACY_ON_DEMAND : Bool) (s : OpenCLCtx) (infos : List EventInfo)
    (hn : infos.length ≤ QueryCount) :
    (∀ i, i + 1 < (runOps TRACY_ON_DEMAND s (infos.map Op.NextQueryId)).ids.length →
      (runOps TRACY_ON_DEMAND s (infos.map Op.NextQueryId)).ids.getD (i + 1) 0
        = ((runOps TRACY_ON_DEMAND s (infos.map Op.NextQueryId)).ids.getD i 0 + 1)
            % QueryCount) ∧
    (∀ i j, i < j → j < (runOps TRACY_ON_DEMAND s (infos.map Op.NextQueryId)).ids.length →
      (runOps TRACY_ON_DEMAND s (infos.map Op.NextQueryId)).ids.getD i 0 % QueryCount
        ≠ (runOps TRACY_ON_DEMAND s (infos.map Op.NextQueryId)).ids.getD j 0 % QueryCount) ∧
    (s.wellFormed → infos.length + s.pending < QueryCount →
      (runOps TRACY_ON_DEMAND s (infos.map Op.NextQueryId)).ids.length = infos.length ∧
      (runOps TRACY_ON_DEMAND s (infos.map Op.NextQueryId)).outcome = .returned) := by
  have hle := allocs_ids_length_le TRACY_ON_DEMAND infos s
  refine ⟨?_, ?_, ?_⟩
  · intro i hi
    rw [allocs_ids_getD TRACY_ON_DEMAND infos s (i + 1) hi,
      allocs_ids_getD TRACY_ON_DEMAND infos s i (by omega), if_neg (Nat.succ_ne_zero i)]
    by_cases hi0 : i = 0
    · subst hi0; rfl
    · rw [if_neg hi0]
      simp only [QueryCount]
      omega
  · intro i j hij hj
    rw [allocs_ids_getD TRACY_ON_DEMAND infos s i (by omega),
      allocs_ids_getD TRACY_ON_DEMAND infos s j hj, if_neg (by omega : ¬ j = 0)]
    have hjq : j < QueryCount := by omega
    clear hle hj
    by_cases hi0 : i = 0
    · subst hi0
      simp only [if_true, QueryCount] at *
      omega
    · rw [if_neg hi0]
      simp only [QueryCount] at *
      omega
  · intro hwf hroom
    obtain ⟨h1, h2, -⟩ := allocs_run TRACY_ON_DEMAND infos s hwf
    constructor
    · rw [h1]; omega
    · rw [h2, if_neg (by omega)]

/-- C7 (witness). Four allocations on the fresh context. -/
theorem allocation_order_witness :
    [(⟨7, .Begin⟩ : EventInfo), ⟨7, .End⟩, ⟨9, .Begin⟩, ⟨9, .End⟩].length ≤ QueryCount ∧
    (runOps false freshCtx
      ([(⟨7, .Begin⟩ : EventInfo), ⟨7, .End⟩, ⟨9, .Begin⟩, ⟨9, .End⟩].map
        Op.NextQueryId)).ids.length = 4 :=
  ⟨by decide,
    ((allocation_order false freshCtx [⟨7, .Begin⟩, ⟨7, .End⟩, ⟨9, .Begin⟩, ⟨9, .End⟩]
      (by decide)).2.2 (by decide) (by decide)).1⟩

theorem collectBody_trace_ne_nil (dev : Device) (s : OpenCLCtx) :
    (collectBody dev s).1 ≠ [] := by
  simp only [collectBody]
  split_ifs <;> simp

theorem Collect_trace_ne_nil (TRACY_ON_DEMAND IsConnected : Bool) (dev : Device) (s : OpenCLCtx)
    (hgate : TRACY_ON_DEMAND = false ∨ IsConnected = true) (hth : s.m_tail ≠ s.m_head) :
    (s.Collect TRACY_ON_DEMAND IsConnected dev).trace ≠ [] := by
  have hb := collectBody_trace_ne_nil dev s
  have hc : s.Collect TRACY_ON_DEMAND IsConnected dev = collectLoop dev (65535 + 1) s :=
    Collect_gate_open _ _ _ _ hgate
  rw [hc]
  rcases hbody : collectBody dev s with ⟨effects, _ | o⟩
  · rw [collectLoop_next dev _ s effects hth hbody]
    rw [hbody] at hb
    simpa using fun h => absurd h hb
  · rw [collectLoop_exit dev _ s effects o hth hbody]
    rw [hbody] at hb
    exact hb

/-- C8. `NextQueryId` fails exactly when advancing the head would make it
equal the tail, `(head + 1) % 65536 == tail`, and a failing call writes no
slot and leaves the tail in place; a call that returns leaves the head
different from the tail. The ring is empty exactly when `head == tail`: in a
well-formed ring no slot is outstanding exactly then, and a draining `Collect`
inspects no slot exactly then. -/
theorem NextQueryId_overflow (s : OpenCLCtx) (eventInfo : EventInfo) :
    QueryCount = 65536 ∧
    ((∃ s1, s.NextQueryId eventInfo = .error s1) ↔ (s.m_head + 1) % QueryCount = s.m_tail) ∧
    (∀ s1, s.NextQueryId eventInfo = .error s1 →
      s1.m_query = s.m_query ∧ s1.m_tail = s.m_tail) ∧
    (∀ id s1, s.NextQueryId eventInfo = .ok (id, s1) → s1.m_head ≠ s1.m_tail) ∧
    (s.wellFormed → (s.pending = 0 ↔ s.m_head = s.m_tail)) ∧
    (∀ (TRACY_ON_DEMAND IsConnected : Bool) (dev : Device),
      (TRACY_ON_DEMAND = false ∨ IsConnected = true) →
      ((s.Collect TRACY_ON_DEMAND IsConnected dev).trace = [] ↔ s.m_head = s.m_tail)) := by
  refine ⟨rfl, ?_, ?_, ?_, ?_, ?_⟩
  · constructor
    · rintro ⟨s1, h⟩
      by_contra hne
      rw [NextQueryId_ok s eventInfo hne] at h
      cases h
    · intro h
      exact ⟨_, NextQueryId_error s eventInfo h⟩
  · intro s1 h
    by_cases hfull : (s.m_head + 1) % QueryCount = s.m_tail
    · rw [NextQueryId_error s eventInfo hfull] at h
      cases h
      exact ⟨rfl, rfl⟩
    · rw [NextQueryId_ok s eventInfo hfull] at h
      cases h
  · intro id s1 h
    by_cases hfull : (s.m_head + 1) % QueryCount = s.m_tail
    · rw [NextQueryId_error s eventInfo hfull] at h
      cases h
    · rw [NextQueryId_ok s eventInfo hfull] at h
      cases h
      exact hfull
  · intro hwf
    rw [pending_eq_zero s hwf]
    exact eq_comm
  · intro od conn dev hgate
    constructor
    · intro h
      by_contra hne
      exact Collect_trace_ne_nil od conn dev s hgate (fun h' => hne h'.symm) h
    · intro h
      rw [Collect_empty od conn dev s h.symm]

/-- C8 (witness). The wrapped ring, well-formed and
not empty, drained with a consumer connected. -/
theorem NextQueryId_overflow_witness :
    wrappedRing.wellFormed ∧
    (wrappedRing.pending = 0 ↔ wrappedRing.m_head = wrappedRing.m_tail) ∧
    ((wrappedRing.Collect true true sampleDevice).trace = [] ↔
      wrappedRing.m_head = wrappedRing.m_tail) :=
  ⟨by decide,
    (NextQueryId_overflow wrappedRing ⟨7, .Begin⟩).2.2.2.2.1 (by decide),
    (NextQueryId_overflow wrappedRing ⟨7, .Begin⟩).2.2.2.2.2 true true sampleDevice
      (Or.inr rfl)⟩

/-- C9 (amended). On a freshly constructed context that is never drained, the
first 65535 calls to `NextQueryId` return, with the ids 0 to 65534 in order,
and the 65536-th call is the one that fails its assertion; slot 0, like every
slot up to 65534, is left as its allocation wrote it, and slot 65535 is never
written. -/
theorem overflow_on_fresh_context (TRACY_ON_DEMAND : Bool) (counter : Nat) (hostTime : Int)
    (p : Probe) (memory : Nat → EventInfo) (s : OpenCLCtx) (infos : List EventInfo)
    (hfresh : ctor counter hostTime p memory = some s) (hlen : QueryCount ≤ infos.length) :
    (runOps TRACY_ON_DEMAND s (infos.map Op.NextQueryId)).ids = List.range 65535 ∧
    (runOps TRACY_ON_DEMAND s (infos.map Op.NextQueryId)).outcome = .assertFailed ∧
    (∀ i, i < 65535 →
      (runOps TRACY_ON_DEMAND s (infos.map Op.NextQueryId)).ctx.m_query i
        = infos.getD i ⟨nullptr, .Begin⟩) ∧
    (runOps TRACY_ON_DEMAND s (infos.map Op.NextQueryId)).ctx.m_query 65535 = memory 65535 ∧
    (runOps TRACY_ON_DEMAND s (infos.map Op.NextQueryId)).ctx.m_tail = 0 := by
  obtain ⟨hh, ht, _, hm, _⟩ := ctor_fresh counter hostTime p memory s hfresh
  have hwf : s.wellFormed := by
    unfold wellFormed
    rw [hh, ht]
    decide
  have hp : s.pending = 0 := by simp [pending, hh, ht]
  have hq : QueryCount = 65536 := rfl
  have hlen1 : 65536 ≤ infos.length := hlen
  obtain ⟨h1, h2, h3, h4, h5⟩ := allocs_run TRACY_ON_DEMAND infos s hwf
  rw [hp, hh] at h3 h4
  rw [hp] at h1 h2
  have hmin : min infos.length (QueryCount - 1 - 0) = 65535 := by rw [hq]; omega
  rw [hmin] at h1 h3 h4
  refine ⟨?_, ?_, ?_, ?_, by rw [h5, ht]⟩
  · apply List.ext_getElem
    · rw [h1, List.length_range]
    · intro i hi1 hi2
      have := allocs_ids_getD TRACY_ON_DEMAND infos s i hi1
      rw [List.getD_eq_getElem _ _ hi1] at this
      rw [this, List.getElem_range, hh]
      rw [h1] at hi1
      by_cases hi0 : i = 0
      · rw [if_pos hi0, hi0]
      · rw [if_neg hi0, hq]
        omega
  · rw [h2, if_pos (by rw [hq]; omega)]
  · intro i hi
    have := h3 i hi
    rwa [Nat.zero_add, hq, Nat.mod_eq_of_lt (by omega)] at this
  · rw [h4, hm]
    intro i hi
    rw [hq]
    omega

/-- C9 (witness). 65537 allocations on the fresh
context. -/
theorem overflow_on_fresh_context_witness :
    ctor 3 5000 sampleProbe (fun _ => ⟨nullptr, .Begin⟩) = some freshCtx ∧
    QueryCount ≤ (List.replicate 65537 (⟨7, .End⟩ : EventInfo)).length ∧
    (runOps false freshCtx
      ((List.replicate 65537 (⟨7, .End⟩ : EventInfo)).map Op.NextQueryId)).outcome
        = .assertFailed :=
  ⟨rfl, by rw [List.length_replicate]; decide,
    (overflow_on_fresh_context false 3 5000 sampleProbe (fun _ => ⟨nullptr, .Begin⟩) freshCtx
      (List.replicate 65537 ⟨7, .End⟩) rfl (by rw [List.length_replicate]; decide)).2.1⟩

/-- C9 (counterexample). On the fresh context, never drained, a run of 65536
calls to `NextQueryId` ends in a failed assertion with 65535 ids returned: the
65536-th call fails, not the 65537-th. -/
theorem overflow_at_65536th_allocation :
    ctor 3 5000 sampleProbe (fun _ => ⟨nullptr, .Begin⟩) = some freshCtx ∧
    (runOps false freshCtx
      ((List.replicate 65536 (⟨7, .End⟩ : EventInfo)).map Op.NextQueryId)).ids.length
        = 65535 ∧
    (runOps false freshCtx
      ((List.replicate 65536 (⟨7, .End⟩ : EventInfo)).map Op.NextQueryId)).outcome
        = .assertFailed := by
  have hwf : freshCtx.wellFormed := by decide
  have hp : freshCtx.pending = 0 := by decide
  obtain ⟨h1, h2, -⟩ := allocs_run false (List.replicate 65536 ⟨7, .End⟩) freshCtx hwf
  rw [hp, List.length_replicate] at h1 h2
  exact ⟨rfl, by rw [h1]; decide, by rw [h2]; decide⟩

/-! ## C10: `TimestampOffset` and order -/

theorem toInt64_of_range (x : Int) (h1 : -2 ^ 63 ≤ x) (h2 : x < 2 ^ 63) : toInt64 x = x := by
  simp only [toInt64]
  omega

theorem toInt64_add_toInt64 (x y : Int) : toInt64 (x + toInt64 y) = toInt64 (x + y) := by
  simp only [toInt64]
  omega

/-- C10 (amended). For every context and all device timestamps `a < b` read
as `cl_ulong` and passed through the `int64_t` parameter: when `b` is below
`2^63` and the exact values `hostEpoch + (a - deviceEpoch)` and
`hostEpoch + (b - deviceEpoch)` lie in the range of `int64_t`,
`TimestampOffset` returns exactly these values, so
`TimestampOffset(a) < TimestampOffset(b)`. -/
theorem TimestampOffset_monotone (s : OpenCLCtx) (a b : Nat) (hab : a < b)
    (hb : b < 2 ^ 63)
    (hlo : -2 ^ 63 ≤ s.m_hostStartTime + ((a : Int) - s.m_deviceStartTime))
    (hhi : s.m_hostStartTime + ((b : Int) - s.m_deviceStartTime) < 2 ^ 63) :
    s.TimestampOffset (toInt64 a) = s.m_hostStartTime + ((a : Int) - s.m_deviceStartTime) ∧
    s.TimestampOffset (toInt64 b) = s.m_hostStartTime + ((b : Int) - s.m_deviceStartTime) ∧
    s.TimestampOffset (toInt64 a) < s.TimestampOffset (toInt64 b) ∧
    s.TimestampOffset (toInt64 a) ≤ s.TimestampOffset (toInt64 b) := by
  have ha : toInt64 a = a := toInt64_of_range a (by omega) (by omega)
  have hb1 : toInt64 b = b := toInt64_of_range b (by omega) (by omega)
  have h1 : s.TimestampOffset (toInt64 a)
      = s.m_hostStartTime + ((a : Int) - s.m_deviceStartTime) := by
    rw [TimestampOffset, toInt64_add_toInt64, ha]
    exact toInt64_of_range _ hlo (by omega)
  have h2 : s.TimestampOffset (toInt64 b)
      = s.m_hostStartTime + ((b : Int) - s.m_deviceStartTime) := by
    rw [TimestampOffset, toInt64_add_toInt64, hb1]
    exact toInt64_of_range _ (by omega) hhi
  refine ⟨h1, h2, ?_, ?_⟩ <;> rw [h1, h2] <;> omega

/-- C10 (witness). The start and end times of event 7
on `sampleDevice`, converted by the fresh context. -/
theorem TimestampOffset_monotone_witness :
    freshCtx.TimestampOffset (toInt64 (1070 : Nat)) = 5070 ∧
    freshCtx.TimestampOffset (toInt64 (1075 : Nat)) = 5075 ∧
    freshCtx.TimestampOffset (toInt64 (1070 : Nat))
      < freshCtx.TimestampOffset (toInt64 (1075 : Nat)) :=
  let h := TimestampOffset_monotone freshCtx 1070 1075 (by decide) (by decide) (by decide)
    (by decide)
  ⟨h.1, h.2.1, h.2.2.1⟩

/-- C10 (counterexample). In the context with host epoch 5000 and device
epoch 1000, the device timestamps `a = 2^63 - 4001 < b = 2^63 - 4000` convert
to `2^63 - 1` and, by wrap-around of the 64-bit sum, to `-2^63`: the order is
reversed. -/
theorem TimestampOffset_wraps :
    (2 ^ 63 - 4001 : Nat) < 2 ^ 63 - 4000 ∧
    freshCtx.TimestampOffset (toInt64 ((2 ^ 63 - 4001 : Nat) : Int)) = 2 ^ 63 - 1 ∧
    freshCtx.TimestampOffset (toInt64 ((2 ^ 63 - 4000 : Nat) : Int)) = -2 ^ 63 ∧
    ¬ freshCtx.TimestampOffset (toInt64 ((2 ^ 63 - 4001 : Nat) : Int))
        ≤ freshCtx.TimestampOffset (toInt64 ((2 ^ 63 - 4000 : Nat) : Int)) := by
  decide

/-! ## C11: the content of a `GpuTime` record -/

theorem queued_collectBody_some (dev : Device) (s : OpenCLCtx) (o : Outcome)
    (h : (collectBody dev s).2 = some o) :
    queued (collectBody dev s).1 = [] ∨
    (o = Outcome.assertFailed ∧
      queued (collectBody dev s).1 =
        [QueueItem.GpuTime (s.TimestampOffset (toInt64 (toUInt64
          (dev.clGetEventProfilingInfo (s.m_query s.m_tail).event
            (profilingParam (s.m_query s.m_tail).phase)).2)))
          (toUInt16 s.m_tail) s.m_contextId]) := by
  revert h
  rcases hph : (s.m_query s.m_tail).phase <;>
  by_cases h1 : (dev.clGetEventInfo (s.m_query s.m_tail).event).1 = CL_SUCCESS <;>
  by_cases h2 : (dev.clGetEventInfo (s.m_query s.m_tail).event).2 = CL_COMPLETE <;>
  by_cases h3 : (dev.clGetEventProfilingInfo (s.m_query s.m_tail).event
      (profilingParam (s.m_query s.m_tail).phase)).1 = CL_SUCCESS <;>
  by_cases h4 : toUInt64 (dev.clGetEventProfilingInfo (s.m_query s.m_tail).event
      (profilingParam (s.m_query s.m_tail).phase)).2 = 0 <;>
  by_cases h5 : dev.clReleaseEvent (s.m_query s.m_tail).event = CL_SUCCESS <;>
  simp only [profilingParam, hph, if_true, if_false, reduceCtorEq] at h3 h4 <;>
  simp [collectBody, profilingParam, queued, *]
  exact fun h => h.symm

/-- C11. For every `Collect` call on a well-formed ring the `GpuTime`
records written are, in order, one per slot the call drains (and, when the
call aborts on a failed `clReleaseEvent`, one more for the slot at the tail).
The record of a slot has as query id the index of the slot, as context the
id of the context, and as time `m_hostStartTime + (t - m_deviceStartTime)`
computed in `int64_t`, where `t` is the profiling timestamp read with
`CL_PROFILING_COMMAND_START` for a Begin slot and `CL_PROFILING_COMMAND_END`
for an End slot. When the exact value fits `int64_t` the time is that exact
value, and a device timestamp equal to the device epoch maps to the host
epoch. -/
theorem drained_record_content (TRACY_ON_DEMAND IsConnected : Bool) (dev : Device)
    (s : OpenCLCtx) (hwf : s.wellFormed) :
    (∃ j, j ≤ s.pending ∧
      ((TRACY_ON_DEMAND = false ∨ IsConnected = true) →
        (s.Collect TRACY_ON_DEMAND IsConnected dev).ctx = s.tailAt j) ∧
      (queued (s.Collect TRACY_ON_DEMAND IsConnected dev).trace
          = (List.range j).map (fun i => s.gpuTimeItem i
              (dev.clGetEventProfilingInfo (s.m_query (s.slotAt i)).event
                (profilingParam (s.m_query (s.slotAt i)).phase)).2) ∨
        ((s.Collect TRACY_ON_DEMAND IsConnected dev).outcome = .assertFailed ∧ j < s.pending ∧
          queued (s.Collect TRACY_ON_DEMAND IsConnected dev).trace
            = (List.range (j + 1)).map (fun i => s.gpuTimeItem i
                (dev.clGetEventProfilingInfo (s.m_query (s.slotAt i)).event
                  (profilingParam (s.m_query (s.slotAt i)).phase)).2)))) ∧
    (∀ i t, s.gpuTimeItem i t =
      .GpuTime (toInt64 (s.m_hostStartTime + toInt64 (toInt64 (toUInt64 t) - s.m_deviceStartTime)))
        (s.slotAt i) s.m_contextId) ∧
    profilingParam .Begin = CL_PROFILING_COMMAND_START ∧
    profilingParam .End = CL_PROFILING_COMMAND_END ∧
    (∀ t : Nat, t < 2 ^ 63 →
      -2 ^ 63 ≤ s.m_hostStartTime + ((t : Int) - s.m_deviceStartTime) →
      s.m_hostStartTime + ((t : Int) - s.m_deviceStartTime) < 2 ^ 63 →
      s.TimestampOffset (toInt64 (toUInt64 t))
        = s.m_hostStartTime + ((t : Int) - s.m_deviceStartTime)) ∧
    (-2 ^ 63 ≤ s.m_hostStartTime → s.m_hostStartTime < 2 ^ 63 →
      s.TimestampOffset s.m_deviceStartTime = s.m_hostStartTime) := by
  refine ⟨?_, fun _ _ => rfl, rfl, rfl, ?_, ?_⟩
  · by_cases hgate : TRACY_ON_DEMAND = false ∨ IsConnected = true
    · obtain ⟨j, tl, hj, hdr, hctx, htr, hend⟩ :=
        Collect_spec TRACY_ON_DEMAND IsConnected dev s hgate hwf
      have hq := queued_drained dev s j hdr
      simp only [queued] at hq
      refine ⟨j, hj, fun _ => hctx, ?_⟩
      rcases hend with ⟨_, htl, _⟩ | ⟨hjp, o, hbody, hout⟩
      · left
        rw [htr, htl, List.append_nil]
        exact hq
      · have hsome : (collectBody dev (s.tailAt j)).2 = some o := by rw [hbody]
        have htl : (collectBody dev (s.tailAt j)).1 = tl := by rw [hbody]
        rcases queued_collectBody_some dev (s.tailAt j) o hsome with h1 | ⟨ho, h1⟩
        · left
          rw [htl] at h1
          simp only [queued] at h1
          rw [htr]
          simp only [queued, List.filterMap_append]
          rw [hq, h1, List.append_nil]
        · right
          rw [htl] at h1
          simp only [queued] at h1
          refine ⟨by rw [hout, ho], hjp, ?_⟩
          rw [htr]
          simp only [queued, List.filterMap_append]
          rw [hq, h1]
          simp [List.range_succ, tailAt, toUInt16_slotAt, gpuTimeItem, TimestampOffset]
    · have h1 : TRACY_ON_DEMAND = true := by cases TRACY_ON_DEMAND <;> simp_all
      have h2 : IsConnected = false := by cases IsConnected <;> simp_all
      subst h1 h2
      refine ⟨0, Nat.zero_le _, fun h => absurd h hgate, Or.inl ?_⟩
      by_cases hth : s.m_tail = s.m_head
      · rw [Collect_empty true false dev s hth]; rfl
      · rw [Collect_gate_closed dev s hth]; rfl
  · intro t ht hlo hhi
    have h1 : toUInt64 t = t := by simp only [toUInt64]; omega
    have h2 : toInt64 (t : Int) = t := toInt64_of_range t (by omega) (by omega)
    rw [h1, TimestampOffset, toInt64_add_toInt64, h2]
    exact toInt64_of_range _ hlo hhi
  · intro hlo hhi
    rw [TimestampOffset, toInt64_add_toInt64, sub_self, add_zero]
    exact toInt64_of_range _ hlo hhi

/-- C11 (witness). Two zones are outstanding on `sampleDevice`; the epochs of
`twoZones` are 5000 and 1000. -/
theorem drained_record_content_witness :
    twoZones.wellFormed ∧
    twoZones.TimestampOffset twoZones.m_deviceStartTime = twoZones.m_hostStartTime ∧
    ∃ j, j ≤ twoZones.pending ∧
      ((false = false ∨ true = true) →
        (twoZones.Collect false true sampleDevice).ctx = twoZones.tailAt j) ∧
      (queued (twoZones.Collect false true sampleDevice).trace
          = (List.range j).map (fun i => twoZones.gpuTimeItem i
              (sampleDevice.clGetEventProfilingInfo (twoZones.m_query (twoZones.slotAt i)).event
                (profilingParam (twoZones.m_query (twoZones.slotAt i)).phase)).2) ∨
        ((twoZones.Collect false true sampleDevice).outcome = .assertFailed ∧
          j < twoZones.pending ∧
          queued (twoZones.Collect false true sampleDevice).trace
            = (List.range (j + 1)).map (fun i => twoZones.gpuTimeItem i
                (sampleDevice.clGetEventProfilingInfo
                  (twoZones.m_query (twoZones.slotAt i)).event
                  (profilingParam (twoZones.m_query (twoZones.slotAt i)).phase)).2))) :=
  ⟨by decide,
    (drained_record_content false true sampleDevice twoZones (by decide)).2.2.2.2.2
      (by decide) (by decide),
    (drained_record_content false true sampleDevice twoZones (by decide)).1⟩

/-! ## C12: one bound zone, drained once -/

theorem CollectNDEBUG_gate_open (TRACY_ON_DEMAND IsConnected : Bool) (dev : Device)
    (s : OpenCLCtx) (hgate : TRACY_ON_DEMAND = false ∨ IsConnected = true) :
    s.CollectNDEBUG TRACY_ON_DEMAND IsConnected dev = collectLoopNDEBUG dev QueryCount s := by
  have hq : QueryCount = 65535 + 1 := by decide
  rw [hq]
  by_cases hth : s.m_tail = s.m_head
  · simp [CollectNDEBUG, collectLoopNDEBUG, hth]
  · rcases hgate with h | h <;> simp [CollectNDEBUG, hth, h, hq]

/-- C12 (amended). Scenario A. On a freshly constructed context, open an
active zone (the build has no `TRACY_ON_DEMAND`, or a consumer is connected),
bind it with `SetEvent` to an event that is complete, close it and call
`Collect` once, the drain not being gated off at that call (no
`TRACY_ON_DEMAND`, or a consumer still connected), on a device on which every
call made on the event succeeds and its start and end timestamps are nonzero.
Then all four calls return; `Collect` writes exactly two `GpuTime` records,
with the query ids `b` and `b + 1` where `b` is the begin query id of the
zone, both with the id of the context; and the ring is empty afterwards. The
same records and the same empty ring result in the build with `NDEBUG`. -/
theorem scenario_A (TRACY_ON_DEMAND IsConnected IsConnectedAtCollect : Bool) (dev : Device)
    (counter : Nat) (hostTime : Int) (p : Probe) (memory : Nat → EventInfo) (s : OpenCLCtx)
    (event : cl_event) (srcLoc : Nat) (cpuTime : Int) (thread uninit : Nat) (cpuTime2 : Int)
    (thread2 : Nat)
    (hfresh : ctor counter hostTime p memory = some s)
    (hactive : TRACY_ON_DEMAND = false ∨ IsConnected = true)
    (hdrain : TRACY_ON_DEMAND = false ∨ IsConnectedAtCollect = true)
    (hretain : dev.clRetainEvent event = CL_SUCCESS)
    (hstatus : dev.clGetEventInfo event = (CL_SUCCESS, CL_COMPLETE))
    (hstart : (dev.clGetEventProfilingInfo event CL_PROFILING_COMMAND_START).1 = CL_SUCCESS)
    (hstart0 : toUInt64 (dev.clGetEventProfilingInfo event CL_PROFILING_COMMAND_START).2 ≠ 0)
    (hend : (dev.clGetEventProfilingInfo event CL_PROFILING_COMMAND_END).1 = CL_SUCCESS)
    (hend0 : toUInt64 (dev.clGetEventProfilingInfo event CL_PROFILING_COMMAND_END).2 ≠ 0)
    (hrelease : dev.clReleaseEvent event = CL_SUCCESS) :
    let b := OpenCLCtxScope.ctor TRACY_ON_DEMAND IsConnected s srcLoc true cpuTime thread uninit
    let v := OpenCLCtxScope.SetEvent dev b.scope b.ctx event
    let e := OpenCLCtxScope.dtor v.scope v.ctx cpuTime2 thread2
    let c := e.ctx.Collect TRACY_ON_DEMAND IsConnectedAtCollect dev
    let vN := OpenCLCtxScope.SetEventNDEBUG b.scope b.ctx event
    let eN := OpenCLCtxScope.dtor vN.scope vN.ctx cpuTime2 thread2
    let cN := eN.ctx.CollectNDEBUG TRACY_ON_DEMAND IsConnectedAtCollect dev
    (b.outcome = .returned ∧ v.outcome = .returned ∧ e.outcome = .returned ∧
      c.outcome = .returned ∧
      queued c.trace =
        [.GpuTime (s.TimestampOffset (toInt64 (toUInt64
            (dev.clGetEventProfilingInfo event CL_PROFILING_COMMAND_START).2)))
            b.scope.m_beginQueryId s.m_contextId,
         .GpuTime (s.TimestampOffset (toInt64 (toUInt64
            (dev.clGetEventProfilingInfo event CL_PROFILING_COMMAND_END).2)))
            (b.scope.m_beginQueryId + 1) s.m_contextId] ∧
      c.ctx.m_head = c.ctx.m_tail ∧ s.m_contextId = counter) ∧
    (vN.outcome = .returned ∧ eN.outcome = .returned ∧ cN.outcome = .returned ∧
      queued cN.trace = queued c.trace ∧ cN.ctx.m_head = cN.ctx.m_tail) := by
  obtain ⟨hh, ht, hid, -, -⟩ := ctor_fresh counter hostTime p memory s hfresh
  obtain ⟨cid, q, h, t, host, dv⟩ := s
  simp only at hh ht hid
  subst hh ht hid
  have hact : (if TRACY_ON_DEMAND = true then true && IsConnected else true) = true := by
    rcases hactive with h | h <;> simp [h]
  have hst1 : (dev.clGetEventInfo event).1 = CL_SUCCESS := by rw [hstatus]
  have hst2 : (dev.clGetEventInfo event).2 = CL_COMPLETE := by rw [hstatus]
  have hq1 : (0 + 1) % QueryCount = 1 := rfl
  have hq2 : (1 + 1) % QueryCount = 2 := rfl
  have hq0 : (0 : Nat) < QueryCount := by decide
  intro b v e c vN eN cN
  have hb : b = ⟨⟨true, nullptr, 0⟩,
      ⟨cid, fun i => if i = 0 then ⟨nullptr, .Begin⟩ else q i, 1, 0, host, dv⟩,
      [.queue (.GpuZoneBeginSerial cpuTime srcLoc thread 0 (cid % 2 ^ 8))], .returned⟩ := by
    simp only [b, OpenCLCtxScope.ctor, hact]
    rw [NextQueryId_ok _ _ (by simp [QueryCount])]
    simp [GetId, toUInt16, hq1]
  have hv : v = ⟨⟨true, event, 0⟩,
      ⟨cid, fun i => if i = 0 then ⟨event, .Begin⟩ else q i, 1, 0, host, dv⟩,
      [.retainEvent event], .returned⟩ := by
    simp only [v, hb, OpenCLCtxScope.SetEvent, hretain, GetQuery, hq0]
    simp
    funext i
    by_cases hi : i = 0 <;> simp [hi]
  have hvN : vN = ⟨⟨true, event, 0⟩,
      ⟨cid, fun i => if i = 0 then ⟨event, .Begin⟩ else q i, 1, 0, host, dv⟩,
      [], .returned⟩ := by
    simp only [vN, hb, OpenCLCtxScope.SetEventNDEBUG]
    simp
    funext i
    by_cases hi : i = 0 <;> simp [hi]
  have he : e = ⟨⟨true, event, 0⟩,
      ⟨cid, fun i => if i = 1 then ⟨event, .End⟩ else if i = 0 then ⟨event, .Begin⟩ else q i,
        2, 0, host, dv⟩,
      [.queue (.GpuZoneEndSerial cpuTime2 thread2 1 (cid % 2 ^ 8))], .returned⟩ := by
    simp only [e, hv, OpenCLCtxScope.dtor]
    rw [NextQueryId_ok _ _ (by simp [QueryCount])]
    simp [GetId, toUInt16, hq2]
  have heN : eN = e := by
    simp only [eN, e, hvN, hv]
  have hc : c = collectLoop dev (65534 + 1 + 1)
      ⟨cid, fun i => if i = 1 then ⟨event, .End⟩ else if i = 0 then ⟨event, .Begin⟩ else q i,
        2, 0, host, dv⟩ := by
    have : c = collectLoop dev QueryCount e.ctx := Collect_gate_open _ _ _ _ hdrain
    rw [this, he]
    rfl
  have hcN : cN = collectLoopNDEBUG dev (65534 + 1 + 1)
      ⟨cid, fun i => if i = 1 then ⟨event, .End⟩ else if i = 0 then ⟨event, .Begin⟩ else q i,
        2, 0, host, dv⟩ := by
    have : cN = collectLoopNDEBUG dev QueryCount eN.ctx := CollectNDEBUG_gate_open _ _ _ _ hdrain
    rw [this, heN, he]
    rfl
  rw [collectLoop_next dev _ _ _ (by simp [QueryCount])
    (by simp [collectBody, hst1, hst2, hstart, hstart0]; rfl)] at hc
  rw [collectLoop_next dev _ _ _ (by simp [QueryCount])
    (by simp [collectBody, hst1, hst2, hend, hend0, hrelease, hq1]; rfl)] at hc
  rw [collectLoop_stop dev _ _ (by simp [hq1, hq2])] at hc
  rw [collectLoopNDEBUG_next dev _ _ _ (by simp [QueryCount])
    (by simp [collectBodyNDEBUG, hst2]; rfl)] at hcN
  rw [collectLoopNDEBUG_next dev _ _ _ (by simp [QueryCount])
    (by simp [collectBodyNDEBUG, hst2, hq1]; rfl)] at hcN
  rw [collectLoopNDEBUG_stop dev _ _ (by simp [hq1, hq2])] at hcN
  simp only [hq1, hq2] at hc hcN
  refine ⟨⟨by rw [hb], by rw [hv], by rw [he], by rw [hc], ?_, by rw [hc], rfl⟩,
    by rw [hvN], by rw [heN, he], by rw [hcN], ?_, by rw [hcN]⟩
  · rw [hc, hb]
    simp [queued, toUInt16, TimestampOffset]
  · rw [hc, hcN]
    simp [queued]

/-- C12 (witness). The scenario on the fresh context in the on-demand build,
with a consumer connected throughout and event 7 of `sampleDevice`. -/
theorem scenario_A_witness :
    ctor 3 5000 sampleProbe (fun _ => ⟨nullptr, .Begin⟩) = some freshCtx ∧
    sampleDevice.clGetEventInfo 7 = (CL_SUCCESS, CL_COMPLETE) ∧
    (let b := OpenCLCtxScope.ctor true true freshCtx 11 true 5100 1 0
     let v := OpenCLCtxScope.SetEvent sampleDevice b.scope b.ctx 7
     let e := OpenCLCtxScope.dtor v.scope v.ctx 5200 1
     let c := e.ctx.Collect true true sampleDevice
     c.outcome = .returned ∧ c.ctx.m_head = c.ctx.m_tail) :=
  ⟨rfl, rfl,
    let h := scenario_A true true true sampleDevice 3 5000 sampleProbe
      (fun _ => ⟨nullptr, .Begin⟩) freshCtx 7 11 5100 1 0 5200 1 rfl (Or.inr rfl) (Or.inr rfl)
      (by decide) rfl (by decide) (by decide) (by decide) (by decide) (by decide)
    ⟨h.1.2.2.2.1, h.1.2.2.2.2.2.1⟩⟩

/-- C12 (counterexample). In the on-demand build, with a consumer connected
while the zone is opened, bound to the complete event 7 and closed, and gone
when `Collect` is called: all four calls return and `Collect` writes no
`GpuTime` record. -/
theorem scenario_A_consumer_gone :
    ctor 3 5000 sampleProbe (fun _ => ⟨nullptr, .Begin⟩) = some freshCtx ∧
    sampleDevice.clGetEventInfo 7 = (CL_SUCCESS, CL_COMPLETE) ∧
    (let b := OpenCLCtxScope.ctor true true freshCtx 11 true 5100 1 0
     let v := OpenCLCtxScope.SetEvent sampleDevice b.scope b.ctx 7
     let e := OpenCLCtxScope.dtor v.scope v.ctx 5200 1
     let c := e.ctx.Collect true false sampleDevice
     b.scope.m_active = true ∧ b.outcome = .returned ∧ v.outcome = .returned ∧
     e.outcome = .returned ∧ c.outcome = .returned ∧ queued c.trace = []) := by
  refine ⟨rfl, rfl, ?_⟩
  decide

/-! ## C13 to C15: the life of a scope -/

/-- C13 (the code at the failing input). `SetEvent` retains the event it is
given whatever the scope: its trace is always the one `clRetainEvent` call.
On the scope constructed with `is_active` false (or, in the on-demand build,
with no consumer connected) over `twoZones`, whose member `m_beginQueryId`
was never assigned and reads 2, `SetEvent(7)` returns having retained event 7
and having overwritten the event of slot 2, which belongs to another zone. -/
theorem SetEvent_on_inactive_scope :
    (∀ (dev : Device) (scope : OpenCLCtxScope) (ctx : OpenCLCtx) (event : cl_event),
      (OpenCLCtxScope.SetEvent dev scope ctx event).trace = [.retainEvent event]) ∧
    inactiveScope.m_active = false ∧
    (OpenCLCtxScope.ctor true false twoZones 11 true 5100 1 2).scope = inactiveScope ∧
    (OpenCLCtxScope.SetEvent sampleDevice inactiveScope twoZones 7).outcome = .returned ∧
    (OpenCLCtxScope.SetEvent sampleDevice inactiveScope twoZones 7).trace = [.retainEvent 7] ∧
    twoZones.m_query 2 = ⟨9, .Begin⟩ ∧
    (OpenCLCtxScope.SetEvent sampleDevice inactiveScope twoZones 7).ctx.m_query 2
      = ⟨7, .Begin⟩ := by
  refine ⟨?_, by decide, by decide, by decide, by decide, by decide, by decide⟩
  intro dev scope ctx event
  simp only [OpenCLCtxScope.SetEvent]
  split_ifs
  · rfl
  · split <;> rfl

/-- C14 (the code at the failing input). The destructor does not look at
`m_active`: its trace, its effect on the context and its outcome are those
for an active scope. On the fresh context, constructing a scope with
`is_active` false allocates nothing and writes no record, but destroying it
allocates slot 0 as an End-phase slot with no event, moves the head to 1 and
writes a `GpuZoneEndSerial` record with query id 0. -/
theorem inactive_scope_lifecycle :
    (∀ (scope : OpenCLCtxScope) (ctx : OpenCLCtx) (cpuTime : Int) (thread : Nat),
      (OpenCLCtxScope.dtor scope ctx cpuTime thread).trace
        = (OpenCLCtxScope.dtor { scope with m_active := true } ctx cpuTime thread).trace ∧
      (OpenCLCtxScope.dtor scope ctx cpuTime thread).ctx
        = (OpenCLCtxScope.dtor { scope with m_active := true } ctx cpuTime thread).ctx ∧
      (OpenCLCtxScope.dtor scope ctx cpuTime thread).outcome
        = (OpenCLCtxScope.dtor { scope with m_active := true } ctx cpuTime thread).outcome) ∧
    (OpenCLCtxScope.ctor false true freshCtx 11 false 5100 1 0).scope.m_active = false ∧
    (OpenCLCtxScope.ctor false true freshCtx 11 false 5100 1 0).trace = [] ∧
    (OpenCLCtxScope.ctor false true freshCtx 11 false 5100 1 0).ctx.m_head = 0 ∧
    (OpenCLCtxScope.dtor (OpenCLCtxScope.ctor false true freshCtx 11 false 5100 1 0).scope
      (OpenCLCtxScope.ctor false true freshCtx 11 false 5100 1 0).ctx 5200 1).outcome
        = .returned ∧
    (OpenCLCtxScope.dtor (OpenCLCtxScope.ctor false true freshCtx 11 false 5100 1 0).scope
      (OpenCLCtxScope.ctor false true freshCtx 11 false 5100 1 0).ctx 5200 1).ctx.m_head = 1 ∧
    (OpenCLCtxScope.dtor (OpenCLCtxScope.ctor false true freshCtx 11 false 5100 1 0).scope
      (OpenCLCtxScope.ctor false true freshCtx 11 false 5100 1 0).ctx 5200 1).ctx.m_query 0
        = ⟨nullptr, .End⟩ ∧
    (OpenCLCtxScope.dtor (OpenCLCtxScope.ctor false true freshCtx 11 false 5100 1 0).scope
      (OpenCLCtxScope.ctor false true freshCtx 11 false 5100 1 0).ctx 5200 1).trace
        = [.queue (.GpuZoneEndSerial 5200 1 0 3)] := by
  refine ⟨?_, by decide, by decide, by decide, by decide, by decide, by decide, by decide⟩
  intro scope ctx cpuTime thread
  simp only [OpenCLCtxScope.dtor]
  split <;> exact ⟨rfl, rfl, rfl⟩

theorem toUInt16_of_lt (x : Nat) (h : x < QueryCount) : toUInt16 x = x := by
  simp only [toUInt16, QueryCount] at *
  omega

theorem GetId_of_lt (s : OpenCLCtx) (h : s.m_contextId < 256) : s.GetId = s.m_contextId := by
  simp only [GetId]
  omega

/-- C15. On a well-formed ring with room for two allocations, in a context
whose id fits the `uint8_t` of `GetId`: constructing an active scope (either
constructor) returns, allocates the slot at the head as a Begin-phase slot
with no event and writes one zone-begin record whose query id is that slot
and whose context is the id of the context; destroying the scope allocates
the next slot as an End-phase slot whose event is the one `SetEvent` attached,
or none when `SetEvent` was not called, and writes one `GpuZoneEndSerial`
record with that new id and the id of the context; the end id is the begin id
plus 1 modulo 65536. -/
theorem active_zone_lifecycle (TRACY_ON_DEMAND IsConnected : Bool) (s : OpenCLCtx)
    (srcLoc : Nat) (cpuTime : Int) (thread uninit : Nat) (cpuTime2 : Int) (thread2 : Nat)
    (hgate : TRACY_ON_DEMAND = false ∨ IsConnected = true)
    (hwf : s.wellFormed) (hid : s.m_contextId < 256)
    (hroom1 : (s.m_head + 1) % QueryCount ≠ s.m_tail)
    (hroom2 : ((s.m_head + 1) % QueryCount + 1) % QueryCount ≠ s.m_tail) :
    let b := OpenCLCtxScope.ctor TRACY_ON_DEMAND IsConnected s srcLoc true cpuTime thread uninit
    (b.outcome = .returned ∧ b.scope = ⟨true, nullptr, s.m_head⟩ ∧
      b.ctx.m_query s.m_head = ⟨nullptr, .Begin⟩ ∧
      (∀ i, i ≠ s.m_head → b.ctx.m_query i = s.m_query i) ∧
      b.ctx.m_head = (s.m_head + 1) % QueryCount ∧ b.ctx.m_tail = s.m_tail ∧
      b.trace = [.queue (.GpuZoneBeginSerial cpuTime srcLoc thread s.m_head s.m_contextId)]) ∧
    (∀ depth : Int,
      OpenCLCtxScope.ctorCallstack TRACY_ON_DEMAND IsConnected s srcLoc depth true cpuTime thread
          uninit
        = ⟨b.scope, b.ctx,
            [.queue (.GpuZoneBeginCallstackSerial cpuTime srcLoc thread s.m_head s.m_contextId),
             .sendCallstack depth], .returned⟩) ∧
    (let e := OpenCLCtxScope.dtor b.scope b.ctx cpuTime2 thread2
     e.outcome = .returned ∧
      e.ctx.m_query ((s.m_head + 1) % QueryCount) = ⟨nullptr, .End⟩ ∧
      (∀ i, i ≠ (s.m_head + 1) % QueryCount → e.ctx.m_query i = b.ctx.m_query i) ∧
      e.ctx.m_head = ((s.m_head + 1) % QueryCount + 1) % QueryCount ∧
      e.ctx.m_tail = s.m_tail ∧
      e.trace = [.queue (.GpuZoneEndSerial cpuTime2 thread2 ((s.m_head + 1) % QueryCount)
        s.m_contextId)]) ∧
    (∀ (dev : Device) (event : cl_event), dev.clRetainEvent event = CL_SUCCESS →
      let v := OpenCLCtxScope.SetEvent dev b.scope b.ctx event
      let e := OpenCLCtxScope.dtor v.scope v.ctx cpuTime2 thread2
      v.outcome = .returned ∧ v.scope.m_event = event ∧
      v.ctx.m_head = b.ctx.m_head ∧ v.ctx.m_tail = b.ctx.m_tail ∧
      v.ctx.m_query s.m_head = ⟨event, .Begin⟩ ∧
      e.outcome = .returned ∧
      e.ctx.m_query ((s.m_head + 1) % QueryCount) = ⟨event, .End⟩ ∧
      (∀ i, i ≠ (s.m_head + 1) % QueryCount → e.ctx.m_query i = v.ctx.m_query i) ∧
      e.ctx.m_head = ((s.m_head + 1) % QueryCount + 1) % QueryCount ∧
      e.ctx.m_tail = s.m_tail ∧
      e.trace = [.queue (.GpuZoneEndSerial cpuTime2 thread2 ((s.m_head + 1) % QueryCount)
        s.m_contextId)]) := by
  have hact : (if TRACY_ON_DEMAND = true then true && IsConnected else true) = true := by
    rcases hgate with h | h <;> simp [h]
  have h16 := toUInt16_of_lt s.m_head hwf.1
  have h16' := toUInt16_of_lt ((s.m_head + 1) % QueryCount) (Nat.mod_lt _ (by decide))
  have hget : s.m_contextId % 2 ^ 8 = s.m_contextId := GetId_of_lt s hid
  intro b
  have hb : b = ⟨⟨true, nullptr, s.m_head⟩,
      { s with m_head := (s.m_head + 1) % QueryCount,
               m_query := fun i => if i = s.m_head then ⟨nullptr, .Begin⟩ else s.m_query i },
      [.queue (.GpuZoneBeginSerial cpuTime srcLoc thread s.m_head s.m_contextId)],
      .returned⟩ := by
    simp only [b, OpenCLCtxScope.ctor, hact, NextQueryId_ok s _ hroom1]
    simp [GetId, h16, hid]
  refine ⟨?_, ?_, ?_, ?_⟩
  · rw [hb]
    refine ⟨rfl, rfl, by simp, ?_, rfl, rfl, rfl⟩
    intro i hi
    simp [hi]
  · intro depth
    rw [hb]
    simp only [OpenCLCtxScope.ctorCallstack, hact, NextQueryId_ok s _ hroom1]
    simp [GetId, h16, hid]
  · intro e
    have he : e = ⟨⟨true, nullptr, s.m_head⟩,
        { s with m_head := ((s.m_head + 1) % QueryCount + 1) % QueryCount,
                 m_query := fun i => if i = (s.m_head + 1) % QueryCount then ⟨nullptr, .End⟩
                   else b.ctx.m_query i },
        [.queue (.GpuZoneEndSerial cpuTime2 thread2 ((s.m_head + 1) % QueryCount)
          s.m_contextId)], .returned⟩ := by
      simp only [e, hb, OpenCLCtxScope.dtor]
      rw [NextQueryId_ok _ _ hroom2]
      simp [GetId, h16', hid]
    rw [he]
    refine ⟨rfl, by simp, ?_, rfl, rfl, rfl⟩
    intro i hi
    simp [hi]
  · intro dev event hretain v e
    have hv : v = ⟨⟨true, event, s.m_head⟩,
        { s with m_head := (s.m_head + 1) % QueryCount,
                 m_query := fun i => if i = s.m_head then ⟨event, .Begin⟩ else s.m_query i },
        [.retainEvent event], .returned⟩ := by
      simp only [v, hb, OpenCLCtxScope.SetEvent, hretain, GetQuery, hwf.1]
      simp
      funext i
      by_cases hi : i = s.m_head <;> simp [hi]
    have he : e = ⟨⟨true, event, s.m_head⟩,
        { s with m_head := ((s.m_head + 1) % QueryCount + 1) % QueryCount,
                 m_query := fun i => if i = (s.m_head + 1) % QueryCount then ⟨event, .End⟩
                   else v.ctx.m_query i },
        [.queue (.GpuZoneEndSerial cpuTime2 thread2 ((s.m_head + 1) % QueryCount)
          s.m_contextId)], .returned⟩ := by
      simp only [e, hv, OpenCLCtxScope.dtor]
      rw [NextQueryId_ok _ _ hroom2]
      simp [GetId, h16', hid]
    rw [he]
    refine ⟨by rw [hv], by rw [hv], by rw [hv, hb], by rw [hv, hb], by rw [hv]; simp, rfl,
      by simp, ?_, rfl, rfl, rfl⟩
    intro i hi
    simp [hi]

/-- C15 (witness). A zone on the fresh context. -/
theorem active_zone_lifecycle_witness :
    freshCtx.wellFormed ∧ freshCtx.m_contextId < 256 ∧
    (freshCtx.m_head + 1) % QueryCount ≠ freshCtx.m_tail ∧
    ((freshCtx.m_head + 1) % QueryCount + 1) % QueryCount ≠ freshCtx.m_tail ∧
    (let b := OpenCLCtxScope.ctor false true freshCtx 11 true 5100 1 0
     let e := OpenCLCtxScope.dtor b.scope b.ctx 5200 1
     e.outcome = .returned ∧
      e.ctx.m_query ((freshCtx.m_head + 1) % QueryCount) = ⟨nullptr, .End⟩ ∧
      (∀ i, i ≠ (freshCtx.m_head + 1) % QueryCount → e.ctx.m_query i = b.ctx.m_query i) ∧
      e.ctx.m_head = ((freshCtx.m_head + 1) % QueryCount + 1) % QueryCount ∧
      e.ctx.m_tail = freshCtx.m_tail ∧
      e.trace = [.queue (.GpuZoneEndSerial 5200 1 ((freshCtx.m_head + 1) % QueryCount)
        freshCtx.m_contextId)]) :=
  ⟨by decide, by decide, by decide, by decide,
    (active_zone_lifecycle false true freshCtx 11 5100 1 0 5200 1 (Or.inl rfl) (by decide)
      (by decide) (by decide) (by decide)).2.2.1⟩

/-! ## C16: context ids -/

theorem ctor_contextId (counter : Nat) (hostTime : Int) (p : Probe) (memory : Nat → EventInfo)
    (s : OpenCLCtx) (h : ctor counter hostTime p memory = some s) :
    s.m_contextId = counter ∧ counter ≠ 255 :=
  let h1 := ctor_fresh counter hostTime p memory s h
  ⟨h1.2.2.1, h1.2.2.2.2⟩

theorem constructAll_ids : ∀ (args : List CtorArgs) (c : Nat), c ≤ 255 →
    (constructAll c args).built.map (fun s => s.m_contextId)
      = List.range' c (constructAll c args).built.length ∧
    c + (constructAll c args).built.length ≤ 255 := by
  intro args
  induction args with
  | nil => intro c hc; simp [constructAll, hc]
  | cons a rest ih =>
    intro c hc
    simp only [constructAll, fetch_add]
    cases hctor : ctor c a.hostTime a.probe a.memory with
    | none => simp [hc]
    | some s =>
      obtain ⟨hid, hne⟩ := ctor_contextId c a.hostTime a.probe a.memory s hctor
      obtain ⟨h1, h2⟩ := ih (c + 1) (by omega)
      simp only [List.map_cons, List.length_cons, List.range'_succ, hid, h1]
      exact ⟨trivial, by omega⟩

theorem ctor_some_of_probe (c : Nat) (a : CtorArgs) (hc : c ≠ 255)
    (hp : GetDeviceTimestamp a.probe ≠ none) :
    ∃ s, ctor c a.hostTime a.probe a.memory = some s := by
  unfold ctor
  rw [if_neg hc]
  cases h : GetDeviceTimestamp a.probe with
  | none => exact absurd h hp
  | some d => exact ⟨_, rfl⟩

theorem constructAll_length : ∀ (args : List CtorArgs) (c : Nat), c ≤ 255 →
    (∀ a ∈ args, GetDeviceTimestamp a.probe ≠ none) →
    (constructAll c args).built.length = min args.length (255 - c) ∧
    (constructAll c args).outcome
      = if 255 - c < args.length then .assertFailed else .returned := by
  intro args
  induction args with
  | nil => intro c hc _; simp [constructAll]
  | cons a rest ih =>
    intro c hc hp
    simp only [constructAll, fetch_add]
    by_cases h255 : c = 255
    · subst h255
      simp [ctor]
    · obtain ⟨s, hs⟩ := ctor_some_of_probe c a h255 (hp a (List.mem_cons_self _ _))
      obtain ⟨h1, h2⟩ := ih (c + 1) (by omega) (fun x hx => hp x (List.mem_cons_of_mem _ hx))
      simp only [hs, List.length_cons, h1, h2]
      constructor
      · omega
      · by_cases hlt : 255 - (c + 1) < rest.length
        · rw [if_pos hlt, if_pos (by omega)]
        · rw [if_neg hlt, if_neg (by omega)]

/-- C16. Construct any number of contexts one after the other, each drawing
its id by fetch-and-add from the shared counter, which starts at 0; a
construction whose assertion fails ends the run. The ids of the contexts
built are 0, 1, 2, ... in order, so they are pairwise distinct, and each is
below the sentinel 255; a construction that draws 255 fails. When every
calibration probe succeeds, the first 255 constructions are the ones that
return. -/
theorem context_ids (args : List CtorArgs) :
    (∀ c, fetch_add c = (c, c + 1)) ∧
    (constructAll 0 args).built.map (fun s => s.m_contextId)
      = List.range (constructAll 0 args).built.length ∧
    ((constructAll 0 args).built.map (fun s => s.m_contextId)).Nodup ∧
    (∀ id ∈ (constructAll 0 args).built.map (fun s => s.m_contextId), id < 255) ∧
    (∀ (hostTime : Int) (p : Probe) (memory : Nat → EventInfo),
      ctor 255 hostTime p memory = none) ∧
    ((∀ a ∈ args, GetDeviceTimestamp a.probe ≠ none) →
      (constructAll 0 args).built.length = min args.length 255 ∧
      (constructAll 0 args).outcome = if 255 < args.length then .assertFailed else .returned) := by
  obtain ⟨h1, h2⟩ := constructAll_ids args 0 (by omega)
  rw [← List.range_eq_range'] at h1
  refine ⟨fun _ => rfl, h1, ?_, ?_, fun _ _ _ => by simp [ctor], ?_⟩
  · rw [h1]; exact List.nodup_range _
  · intro id hid
    rw [h1, List.mem_range] at hid
    omega
  · intro hp
    exact constructAll_length args 0 (by omega) hp

/-- C16 (witness). Three hundred constructions on a working device: 255
contexts are built and the next construction fails. -/
theorem context_ids_witness :
    (∀ a ∈ List.replicate 300 sampleArgs, GetDeviceTimestamp a.probe ≠ none) ∧
    (constructAll 0 (List.replicate 300 sampleArgs)).built.length
      = min (List.replicate 300 sampleArgs).length 255 ∧
    (constructAll 0 (List.replicate 300 sampleArgs)).outcome
      = if 255 < (List.replicate 300 sampleArgs).length then .assertFailed else .returned :=
  have hp : ∀ a ∈ List.replicate 300 sampleArgs, GetDeviceTimestamp a.probe ≠ none :=
    fun a ha => by rw [List.eq_of_mem_replicate ha]; decide
  ⟨hp, (context_ids (List.replicate 300 sampleArgs)).2.2.2.2.2 hp⟩

/-! ## C17: which call moves which cursor -/

theorem collectLoop_frame (dev : Device) : ∀ (fuel : Nat) (s : OpenCLCtx),
    (collectLoop dev fuel s).ctx.m_head = s.m_head ∧
    (collectLoop dev fuel s).ctx.m_query = s.m_query ∧
    (collectLoop dev fuel s).ctx.m_contextId = s.m_contextId := by
  intro fuel
  induction fuel with
  | zero =>
    intro s
    by_cases h : s.m_tail = s.m_head <;> simp [collectLoop, h]
  | succ fuel ih =>
    intro s
    by_cases h : s.m_tail = s.m_head
    · simp [collectLoop, h]
    · rcases hb : collectBody dev s with ⟨effects, _ | o⟩
      · rw [collectLoop_next dev fuel s effects h hb]
        exact ih _
      · rw [collectLoop_exit dev fuel s effects o h hb]
        exact ⟨rfl, rfl, rfl⟩

/-- C17 (amended). Every `Collect` call leaves the contents of every slot
unchanged, and leaves the head unchanged when it drains (the build has no
`TRACY_ON_DEMAND`, or a consumer is connected) or finds the ring empty; a
`Collect` call gated off on a ring that is not empty sets the head and the
tail to 0. Every `NextQueryId` call, returning or not, leaves the tail
unchanged. -/
theorem cursor_ownership (TRACY_ON_DEMAND IsConnected : Bool) (dev : Device) (s : OpenCLCtx)
    (eventInfo : EventInfo) :
    (s.Collect TRACY_ON_DEMAND IsConnected dev).ctx.m_query = s.m_query ∧
    ((TRACY_ON_DEMAND = false ∨ IsConnected = true ∨ s.m_tail = s.m_head) →
      (s.Collect TRACY_ON_DEMAND IsConnected dev).ctx.m_head = s.m_head) ∧
    (TRACY_ON_DEMAND = true → IsConnected = false → s.m_tail ≠ s.m_head →
      (s.Collect TRACY_ON_DEMAND IsConnected dev).ctx.m_head = 0 ∧
      (s.Collect TRACY_ON_DEMAND IsConnected dev).ctx.m_tail = 0) ∧
    (∀ id s1, s.NextQueryId eventInfo = .ok (id, s1) → s1.m_tail = s.m_tail) ∧
    (∀ s1, s.NextQueryId eventInfo = .error s1 → s1.m_tail = s.m_tail) := by
  refine ⟨?_, ?_, ?_, ?_, ?_⟩
  · by_cases hgate : TRACY_ON_DEMAND = false ∨ IsConnected = true
    · rw [Collect_gate_open _ _ _ _ hgate]
      exact (collectLoop_frame dev _ s).2.1
    · have h1 : TRACY_ON_DEMAND = true := by cases TRACY_ON_DEMAND <;> simp_all
      have h2 : IsConnected = false := by cases IsConnected <;> simp_all
      subst h1 h2
      by_cases hth : s.m_tail = s.m_head
      · rw [Collect_empty true false dev s hth]
      · rw [Collect_gate_closed dev s hth]
  · intro h
    by_cases hth : s.m_tail = s.m_head
    · rw [Collect_empty _ _ dev s hth]
    · have hgate : TRACY_ON_DEMAND = false ∨ IsConnected = true := by
        rcases h with h | h | h
        · exact Or.inl h
        · exact Or.inr h
        · exact absurd h hth
      rw [Collect_gate_open _ _ _ _ hgate]
      exact (collectLoop_frame dev _ s).1
  · intro h1 h2 hth
    subst h1 h2
    rw [Collect_gate_closed dev s hth]
    exact ⟨rfl, rfl⟩
  · intro id s1 h
    by_cases hfull : (s.m_head + 1) % QueryCount = s.m_tail
    · rw [NextQueryId_error s eventInfo hfull] at h
      cases h
    · rw [NextQueryId_ok s eventInfo hfull] at h
      cases h
      rfl
  · intro s1 h
    by_cases hfull : (s.m_head + 1) % QueryCount = s.m_tail
    · rw [NextQueryId_error s eventInfo hfull] at h
      cases h
      rfl
    · rw [NextQueryId_ok s eventInfo hfull] at h
      cases h

/-- C17 (counterexample). In the on-demand build with no consumer
connected, `Collect` on `twoZones` returns with the head at 0, where it was
4. -/
theorem Collect_gate_closed_resets_head :
    twoZones.m_head = 4 ∧ twoZones.m_tail = 0 ∧
    (twoZones.Collect true false sampleDevice).outcome = .returned ∧
    (twoZones.Collect true false sampleDevice).ctx.m_head = 0 ∧
    (twoZones.Collect true false sampleDevice).ctx.m_head ≠ twoZones.m_head := by
  decide

/-- C17 (witness). A draining `Collect` on `twoZones`. -/
theorem cursor_ownership_witness :
    (false = false ∨ true = true ∨ twoZones.m_tail = twoZones.m_head) ∧
    (twoZones.Collect false true sampleDevice).ctx.m_head = twoZones.m_head ∧
    (twoZones.Collect false true sampleDevice).ctx.m_query = twoZones.m_query :=
  ⟨Or.inl rfl,
    (cursor_ownership false true sampleDevice twoZones ⟨7, .Begin⟩).2.1 (Or.inl rfl),
    (cursor_ownership false true sampleDevice twoZones ⟨7, .Begin⟩).1⟩

/-! ## C18: the discard when no consumer is connected -/

/-- C18. In the on-demand build with no consumer connected: on a ring that
is not empty `Collect` returns with both cursors at 0, so that no slot is
outstanding, with an empty trace (no device event queried, no `GpuTime`
record written, no event released) and the slots as they were; on an empty
ring it returns with nothing changed. -/
theorem gate_closed_discard (dev : Device) (s : OpenCLCtx) :
    (s.m_tail ≠ s.m_head →
      (s.Collect true false dev).outcome = .returned ∧
      (s.Collect true false dev).ctx.m_head = 0 ∧
      (s.Collect true false dev).ctx.m_tail = 0 ∧
      (s.Collect true false dev).ctx.pending = 0 ∧
      (s.Collect true false dev).ctx.m_query = s.m_query ∧
      (s.Collect true false dev).trace = [] ∧
      gpuTimeIds (s.Collect true false dev).trace = [] ∧
      released (s.Collect true false dev).trace = []) ∧
    (s.m_tail = s.m_head →
      (s.Collect true false dev).outcome = .returned ∧
      (s.Collect true false dev).ctx = s ∧
      (s.Collect true false dev).trace = []) := by
  constructor
  · intro hth
    rw [Collect_gate_closed dev s hth]
    exact ⟨rfl, rfl, rfl, by simp [pending], rfl, rfl, rfl, rfl⟩
  · intro hth
    rw [Collect_empty true false dev s hth]
    exact ⟨rfl, rfl, rfl⟩

/-- C18 (witness). The discard of the four outstanding slots of `twoZones`,
two of them End-phase slots holding an event, and a call on the empty fresh
context. -/
theorem gate_closed_discard_witness :
    twoZones.m_tail ≠ twoZones.m_head ∧
    (twoZones.Collect true false sampleDevice).ctx.pending = 0 ∧
    (twoZones.Collect true false sampleDevice).trace = [] ∧
    freshCtx.m_tail = freshCtx.m_head ∧
    (freshCtx.Collect true false sampleDevice).ctx = freshCtx :=
  ⟨by decide,
    ((gate_closed_discard sampleDevice twoZones).1 (by decide)).2.2.2.1,
    ((gate_closed_discard sampleDevice twoZones).1 (by decide)).2.2.2.2.2.1,
    rfl,
    ((gate_closed_discard sampleDevice freshCtx).2 rfl).2.1⟩

/-! ## C20: a timestamp that reads zero -/

theorem collectBody_zero_timestamp (dev : Device) (s : OpenCLCtx)
    (h1 : dev.clGetEventInfo (s.m_query s.m_tail).event = (CL_SUCCESS, CL_COMPLETE))
    (h2 : (dev.clGetEventProfilingInfo (s.m_query s.m_tail).event
      (profilingParam (s.m_query s.m_tail).phase)).1 = CL_SUCCESS)
    (h3 : toUInt64 (dev.clGetEventProfilingInfo (s.m_query s.m_tail).event
      (profilingParam (s.m_query s.m_tail).phase)).2 = 0) :
    collectBody dev s =
      ([.getEventInfo (s.m_query s.m_tail).event,
        .getEventProfilingInfo (s.m_query s.m_tail).event
          (profilingParam (s.m_query s.m_tail).phase)], some .assertFailed) := by
  have ha : (dev.clGetEventInfo (s.m_query s.m_tail).event).1 = CL_SUCCESS := by rw [h1]
  have hb : (dev.clGetEventInfo (s.m_query s.m_tail).event).2 = CL_COMPLETE := by rw [h1]
  simp only [profilingParam] at h2 h3 ⊢
  simp [collectBody, ha, hb, h2, h3]

/-- C20 (amended). Let a `Collect` call drain (the build has no
`TRACY_ON_DEMAND`, or a consumer is connected) a well-formed ring in which the
first `j` outstanding slots are drainable and the next one holds a complete
event whose profiling timestamp for the phase of the slot reads 0, every
device call on it having succeeded. Then the call fails its assertion with
the tail at that slot, not advanced; its trace is that of the `j` drained
slots followed by the status query and the timestamp query of the slot, so
the `GpuTime` records written are those of the `j` earlier slots only and no
release is made for the slot. -/
theorem zero_timestamp_failure (TRACY_ON_DEMAND IsConnected : Bool) (dev : Device)
    (s : OpenCLCtx) (j : Nat) (hgate : TRACY_ON_DEMAND = false ∨ IsConnected = true)
    (hwf : s.wellFormed) (hj : j < s.pending)
    (hearlier : ∀ i, i < j →
      (dev.clGetEventInfo (s.m_query (s.slotAt i)).event).1 = CL_SUCCESS ∧
      (dev.clGetEventInfo (s.m_query (s.slotAt i)).event).2 = CL_COMPLETE ∧
      (dev.clGetEventProfilingInfo (s.m_query (s.slotAt i)).event
        (profilingParam (s.m_query (s.slotAt i)).phase)).1 = CL_SUCCESS ∧
      toUInt64 (dev.clGetEventProfilingInfo (s.m_query (s.slotAt i)).event
        (profilingParam (s.m_query (s.slotAt i)).phase)).2 ≠ 0 ∧
      ((s.m_query (s.slotAt i)).phase = EventPhase.End →
        dev.clReleaseEvent (s.m_query (s.slotAt i)).event = CL_SUCCESS))
    (hstatus : dev.clGetEventInfo (s.m_query (s.slotAt j)).event = (CL_SUCCESS, CL_COMPLETE))
    (hprof : (dev.clGetEventProfilingInfo (s.m_query (s.slotAt j)).event
      (profilingParam (s.m_query (s.slotAt j)).phase)).1 = CL_SUCCESS)
    (hzero : toUInt64 (dev.clGetEventProfilingInfo (s.m_query (s.slotAt j)).event
      (profilingParam (s.m_query (s.slotAt j)).phase)).2 = 0) :
    (s.Collect TRACY_ON_DEMAND IsConnected dev).outcome = .assertFailed ∧
    (s.Collect TRACY_ON_DEMAND IsConnected dev).ctx = s.tailAt j ∧
    (s.Collect TRACY_ON_DEMAND IsConnected dev).trace
      = ((List.range j).flatMap fun i => (collectBody dev (s.tailAt i)).1) ++
        [.getEventInfo (s.m_query (s.slotAt j)).event,
         .getEventProfilingInfo (s.m_query (s.slotAt j)).event
           (profilingParam (s.m_query (s.slotAt j)).phase)] ∧
    queued (s.Collect TRACY_ON_DEMAND IsConnected dev).trace
      = (List.range j).map (fun i => s.gpuTimeItem i
          (dev.clGetEventProfilingInfo (s.m_query (s.slotAt i)).event
            (profilingParam (s.m_query (s.slotAt i)).phase)).2) ∧
    released (s.Collect TRACY_ON_DEMAND IsConnected dev).trace = s.endEvents j := by
  have hbodyj := collectBody_zero_timestamp dev (s.tailAt j) hstatus hprof hzero
  have hdrj : ∀ i, i < j → (collectBody dev (s.tailAt i)).2 = none := fun i hi =>
    (collectBody_none_iff dev (s.tailAt i)).mpr (hearlier i hi)
  obtain ⟨j', tl, hj', hdr, hctx, htr, hend⟩ :=
    Collect_spec TRACY_ON_DEMAND IsConnected dev s hgate hwf
  have hle : j' ≤ j := by
    by_contra hlt
    have := hdr j (by omega)
    rw [hbodyj] at this
    cases this
  have hjj : j' = j := by
    rcases hend with ⟨h1, _, _⟩ | ⟨h1, o, hb, _⟩
    · omega
    · by_contra hne
      have := hdrj j' (by omega)
      rw [hb] at this
      cases this
  subst hjj
  rcases hend with ⟨h1, _, _⟩ | ⟨_, o, hb, hout⟩
  · omega
  · rw [hbodyj] at hb
    have htl : tl = [.getEventInfo (s.m_query (s.slotAt j')).event,
        .getEventProfilingInfo (s.m_query (s.slotAt j')).event
          (profilingParam (s.m_query (s.slotAt j')).phase)] := (Prod.mk.inj hb).1.symm
    have ho : o = .assertFailed := (Option.some.inj (Prod.mk.inj hb).2).symm
    have hq := queued_drained dev s j' hdr
    have hr := released_drained dev s j' hdr
    simp only [queued] at hq
    simp only [released] at hr
    refine ⟨by rw [hout, ho], hctx, by rw [htr, htl], ?_, ?_⟩
    · rw [htr, htl]
      simp only [queued, List.filterMap_append]
      rw [hq]
      simp
    · rw [htr, htl]
      simp only [released, List.filterMap_append]
      rw [hr]
      simp

/-- C20 (counterexample). In the on-demand build with no consumer
connected, the slot at the tail of `twoZones` holds a complete event whose
timestamp reads 0 and every device call succeeds, yet `Collect` returns
without failing. -/
theorem zero_timestamp_gate_closed :
    twoZones.m_tail ≠ twoZones.m_head ∧
    zeroTimestampDevice.clGetEventInfo (twoZones.m_query twoZones.m_tail).event
      = (CL_SUCCESS, CL_COMPLETE) ∧
    zeroTimestampDevice.clGetEventProfilingInfo (twoZones.m_query twoZones.m_tail).event
      (profilingParam (twoZones.m_query twoZones.m_tail).phase) = (CL_SUCCESS, 0) ∧
    (twoZones.Collect true false zeroTimestampDevice).outcome = .returned ∧
    (twoZones.Collect true false zeroTimestampDevice).outcome ≠ .assertFailed := by
  decide

/-- C20 (witness). The first zone of `twoZones` drains and the timestamps
of the event of the second read zero. -/
theorem zero_timestamp_failure_witness :
    twoZones.wellFormed ∧ 2 < twoZones.pending ∧
    (twoZones.Collect false true zeroAtNineDevice).outcome = .assertFailed ∧
    (twoZones.Collect false true zeroAtNineDevice).ctx = twoZones.tailAt 2 ∧
    released (twoZones.Collect false true zeroAtNineDevice).trace = twoZones.endEvents 2 :=
  let h := zero_timestamp_failure false true zeroAtNineDevice twoZones 2 (Or.inl rfl)
    (by decide) (by decide) (by decide) (by decide) (by decide) (by decide)
  ⟨by decide, by decide, h.1, h.2.1, h.2.2.2.2⟩

/-! ## C19: the cursors stay in range -/

theorem Collect_wellFormed (TRACY_ON_DEMAND IsConnected : Bool) (dev : Device) (s : OpenCLCtx)
    (hwf : s.wellFormed) : (s.Collect TRACY_ON_DEMAND IsConnected dev).ctx.wellFormed := by
  by_cases hgate : TRACY_ON_DEMAND = false ∨ IsConnected = true
  · obtain ⟨j, _, _, _, hctx, _, _⟩ := Collect_spec TRACY_ON_DEMAND IsConnected dev s hgate hwf
    rw [hctx]
    exact wellFormed_tailAt s hwf j
  · have h1 : TRACY_ON_DEMAND = true := by cases TRACY_ON_DEMAND <;> simp_all
    have h2 : IsConnected = false := by cases IsConnected <;> simp_all
    subst h1 h2
    by_cases hth : s.m_tail = s.m_head
    · rw [Collect_empty true false dev s hth]; exact hwf
    · rw [Collect_gate_closed dev s hth]
      exact ⟨show 0 < QueryCount by decide, show 0 < QueryCount by decide⟩

theorem runOps_wellFormed (od : Bool) : ∀ (ops : List Op) (s : OpenCLCtx), s.wellFormed →
    (runOps od s ops).ctx.wellFormed ∧ ∀ id ∈ (runOps od s ops).ids, id < QueryCount := by
  intro ops
  induction ops with
  | nil => intro s hwf; simp [runOps, hwf]
  | cons op ops ih =>
    intro s hwf
    cases op with
    | NextQueryId info =>
      by_cases hfull : (s.m_head + 1) % QueryCount = s.m_tail
      · simp only [runOps, NextQueryId_error s info hfull]
        exact ⟨⟨Nat.mod_lt _ (by decide), hwf.2⟩, by simp⟩
      · obtain ⟨h1, h2⟩ := ih _ (wellFormed_alloc s
          (fun i => if i = s.m_head then info else s.m_query i) hwf)
        simp only [runOps, NextQueryId_ok s info hfull]
        refine ⟨h1, ?_⟩
        intro id hid
        rcases List.mem_cons.mp hid with h | h
        · rw [h]; exact hwf.1
        · exact h2 id h
    | Collect conn dev =>
      have hc := Collect_wellFormed od conn dev s hwf
      by_cases hout : (s.Collect od conn dev).outcome = .returned
      · simp only [runOps, hout, if_true]
        exact ih _ hc
      · simp only [runOps, hout, if_false]
        exact ⟨hc, by simp⟩

theorem gpuTimeIds_Collect_mem (TRACY_ON_DEMAND IsConnected : Bool) (dev : Device)
    (s : OpenCLCtx) (hwf : s.wellFormed) :
    ∀ q ∈ gpuTimeIds (s.Collect TRACY_ON_DEMAND IsConnected dev).trace,
      ∃ i, i < s.pending ∧ q = s.slotAt i := by
  by_cases hgate : TRACY_ON_DEMAND = false ∨ IsConnected = true
  · obtain ⟨j, hj, _, hids⟩ := Collect_gpuTimeIds TRACY_ON_DEMAND IsConnected dev s hgate hwf
    intro q hq
    rcases hids with h | ⟨_, hjp, h⟩
    · rw [h, List.mem_map] at hq
      obtain ⟨i, hi, rfl⟩ := hq
      exact ⟨i, by have := List.mem_range.mp hi; omega, rfl⟩
    · rw [h, List.mem_map] at hq
      obtain ⟨i, hi, rfl⟩ := hq
      exact ⟨i, by have := List.mem_range.mp hi; omega, rfl⟩
  · have h1 : TRACY_ON_DEMAND = true := by cases TRACY_ON_DEMAND <;> simp_all
    have h2 : IsConnected = false := by cases IsConnected <;> simp_all
    subst h1 h2
    intro q hq
    by_cases hth : s.m_tail = s.m_head
    · rw [Collect_empty true false dev s hth] at hq; simp [gpuTimeIds] at hq
    · rw [Collect_gate_closed dev s hth] at hq; simp [gpuTimeIds] at hq

/-- C19. Start from a freshly constructed context and make any sequence
of `NextQueryId` and `Collect` calls, in either build and whatever the
connection state. In the state reached both cursors are below 65536; every id
`NextQueryId` returned, and every id it returns next, is below 65536, is
accepted by `GetQuery`, and is unchanged by the cast to `uint16_t` applied
when it is written into a zone-begin or zone-end record; and the query id of
every `GpuTime` record a `Collect` writes from that state is the index of an
outstanding slot, not a truncation of it. -/
theorem cursor_range (TRACY_ON_DEMAND : Bool) (counter : Nat) (hostTime : Int) (p : Probe)
    (memory : Nat → EventInfo) (s : OpenCLCtx) (ops : List Op)
    (hfresh : ctor counter hostTime p memory = some s) :
    QueryCount = 65536 ∧
    (runOps TRACY_ON_DEMAND s ops).ctx.m_head < 65536 ∧
    (runOps TRACY_ON_DEMAND s ops).ctx.m_tail < 65536 ∧
    (∀ id ∈ (runOps TRACY_ON_DEMAND s ops).ids,
      id < 65536 ∧
      (runOps TRACY_ON_DEMAND s ops).ctx.GetQuery id
        = some ((runOps TRACY_ON_DEMAND s ops).ctx.m_query id) ∧
      toUInt16 id = id) ∧
    (∀ (eventInfo : EventInfo) (id : Nat) (s1 : OpenCLCtx),
      (runOps TRACY_ON_DEMAND s ops).ctx.NextQueryId eventInfo = .ok (id, s1) →
      id < 65536 ∧ s1.GetQuery id = some eventInfo ∧ toUInt16 id = id) ∧
    (∀ (IsConnected : Bool) (dev : Device),
      ∀ q ∈ gpuTimeIds ((runOps TRACY_ON_DEMAND s ops).ctx.Collect TRACY_ON_DEMAND
          IsConnected dev).trace,
        ∃ i, i < (runOps TRACY_ON_DEMAND s ops).ctx.pending ∧
          q = (runOps TRACY_ON_DEMAND s ops).ctx.slotAt i ∧ q < 65536) := by
  obtain ⟨hh, ht, _, _, _⟩ := ctor_fresh counter hostTime p memory s hfresh
  have hwf : s.wellFormed := by
    unfold wellFormed
    rw [hh, ht]
    decide
  obtain ⟨⟨h1, h2⟩, h3⟩ := runOps_wellFormed TRACY_ON_DEMAND ops s hwf
  refine ⟨rfl, h1, h2, ?_, ?_, ?_⟩
  · intro id hid
    have hlt := h3 id hid
    exact ⟨hlt, by simp [GetQuery, hlt], toUInt16_of_lt id hlt⟩
  · intro info id s1 hok
    by_cases hfull : ((runOps TRACY_ON_DEMAND s ops).ctx.m_head + 1) % QueryCount
        = (runOps TRACY_ON_DEMAND s ops).ctx.m_tail
    · rw [NextQueryId_error _ info hfull] at hok
      cases hok
    · rw [NextQueryId_ok _ info hfull] at hok
      cases hok
      exact ⟨h1, by simp [GetQuery, h1], toUInt16_of_lt _ h1⟩
  · intro conn dev q hq
    obtain ⟨i, hi, rfl⟩ := gpuTimeIds_Collect_mem TRACY_ON_DEMAND conn dev _ ⟨h1, h2⟩ q hq
    exact ⟨i, hi, rfl, slotAt_lt _ i⟩

/-- C19 (witness). The calls of `gatedOps` on the fresh context, in the
on-demand build. -/
theorem cursor_range_witness :
    ctor 3 5000 sampleProbe (fun _ => ⟨nullptr, .Begin⟩) = some freshCtx ∧
    (runOps true freshCtx gatedOps).ctx.m_head < 65536 ∧
    (runOps true freshCtx gatedOps).ctx.m_tail < 65536 :=
  ⟨rfl,
    (cursor_range true 3 5000 sampleProbe (fun _ => ⟨nullptr, .Begin⟩) freshCtx gatedOps
      rfl).2.1,
    (cursor_range true 3 5000 sampleProbe (fun _ => ⟨nullptr, .Begin⟩) freshCtx gatedOps
      rfl).2.2.1⟩

end OpenCLCtx

end tracy
